import Mathlib

/-!
Verification of the sales-order assembly and submission pipeline of
`modules/vendas/service.py` (spreadsheet → grouped orders → validation →
payload → batch submission), shallowly embedded in Lean.

Monetary values are modelled as exact rationals (`ℚ`); Python's
`round(x, 2)` is modelled by `round2` (round half to even at two decimal
places).  Python exceptions are modelled with `Except Erro`; each `raise`
site of the source gets its own `Erro` constructor carrying the values
interpolated into the source's message string.  Remote HTTP calls
(`api_get` / `api_post`) and `st.secrets` are modelled by an explicit
environment record `Env` of oracle functions.
-/

namespace Vendas

/-! ### Basic string helpers (Python `str.strip`, `str.upper`, …) -/

/-- Python `str.strip()` on a character list: drop leading and trailing
whitespace. -/
def pyStrip (cs : List Char) : List Char :=
  ((cs.dropWhile Char.isWhitespace).reverse.dropWhile Char.isWhitespace).reverse

/-- Python `str.strip()` on a `String`. -/
def stripStr (s : String) : String :=
  String.mk (pyStrip s.data)

/-- One step of Unicode NFKD-decomposition followed by removal of combining
marks, restricted to the Latin letters that occur in this code base's
spreadsheet headers and enum tokens (the source calls
`unicodedata.normalize("NFKD", s)` and drops combining characters; on this
repertoire that is exactly accent stripping, and it is the identity on
ASCII). -/
def foldChar (c : Char) : Char :=
  if c = 'á' ∨ c = 'à' ∨ c = 'â' ∨ c = 'ã' ∨ c = 'ä' then 'a'
  else if c = 'Á' ∨ c = 'À' ∨ c = 'Â' ∨ c = 'Ã' ∨ c = 'Ä' then 'A'
  else if c = 'é' ∨ c = 'è' ∨ c = 'ê' ∨ c = 'ë' then 'e'
  else if c = 'É' ∨ c = 'È' ∨ c = 'Ê' ∨ c = 'Ë' then 'E'
  else if c = 'í' ∨ c = 'ì' ∨ c = 'î' ∨ c = 'ï' then 'i'
  else if c = 'Í' ∨ c = 'Ì' ∨ c = 'Î' ∨ c = 'Ï' then 'I'
  else if c = 'ó' ∨ c = 'ò' ∨ c = 'ô' ∨ c = 'õ' ∨ c = 'ö' then 'o'
  else if c = 'Ó' ∨ c = 'Ò' ∨ c = 'Ô' ∨ c = 'Õ' ∨ c = 'Ö' then 'O'
  else if c = 'ú' ∨ c = 'ù' ∨ c = 'û' ∨ c = 'ü' then 'u'
  else if c = 'Ú' ∨ c = 'Ù' ∨ c = 'Û' ∨ c = 'Ü' then 'U'
  else if c = 'ç' then 'c'
  else if c = 'Ç' then 'C'
  else if c = 'ñ' then 'n'
  else if c = 'Ñ' then 'N'
  else c

/-- `_normalize_token` of the source: `str(s or "").strip().upper()`, NFKD
with combining marks removed, then `-` and space replaced by `_`.  (We fold
accents before upper-casing; on this repertoire the two orders agree.) -/
def _normalize_token (s : String) : String :=
  String.mk (((pyStrip s.data).map (fun c => Char.toUpper (foldChar c))).map
    (fun c => if c = '-' ∨ c = ' ' then '_' else c))

/-! ### Payment-method canonicalization (`_normalize_payment_method`) -/

/-- `ALLOWED_PAYMENT_METHODS` of the source (a Python `set`, here the list of
its elements in source order). -/
def ALLOWED_PAYMENT_METHODS : List String :=
  ["PIX", "BOLETO_BANCARIO", "CARTAO_CREDITO", "CARTAO_DEBITO",
   "DEPOSITO_BANCARIO", "TRANSFERENCIA_BANCARIA", "DINHEIRO",
   "CARTEIRA_DIGITAL", "CREDITO_LOJA", "CHEQUE"]

/-- `PAYMENT_ALIASES` of the source (a Python `dict`, here an association
list in source order). -/
def PAYMENT_ALIASES : List (String × String) :=
  [("PIX", "PIX"),
   ("PIX_ITAU", "PIX"), ("PIX_BRADESCO", "PIX"), ("PIX_BB", "PIX"),
   ("PIX_CAIXA", "PIX"), ("QRCODE", "PIX"), ("CHAVE_PIX", "PIX"),
   ("BOLETO", "BOLETO_BANCARIO"),
   ("BOLETO_BB", "BOLETO_BANCARIO"), ("BOLETO_CAIXA", "BOLETO_BANCARIO"),
   ("BOLETO_BRADESCO", "BOLETO_BANCARIO"),
   ("CARTAO_CREDITO", "CARTAO_CREDITO"),
   ("CREDITO", "CARTAO_CREDITO"),
   ("CARTAO_DEBITO", "CARTAO_DEBITO"),
   ("DEBITO", "CARTAO_DEBITO"),
   ("TRANSFERENCIA", "TRANSFERENCIA_BANCARIA"),
   ("TED", "TRANSFERENCIA_BANCARIA"), ("DOC", "TRANSFERENCIA_BANCARIA"),
   ("DEPOSITO", "DEPOSITO_BANCARIO"),
   ("DINHEIRO", "DINHEIRO"),
   ("WALLET", "CARTEIRA_DIGITAL")]

/-- Insertion of a string into a sorted list, by code-point order (the order
Python's `sorted` uses on `str`). -/
def sortedInsert (s : String) : List String → List String
  | [] => [s]
  | t :: ts => if decide (s < t) then s :: t :: ts else t :: sortedInsert s ts

/-- Python `sorted` on a list of strings (insertion sort; the inputs here are
distinct, so stability is irrelevant). -/
def sortStrings : List String → List String
  | [] => []
  | s :: ss => sortedInsert s (sortStrings ss)

/-- `", ".join(sorted(list(ALLOWED_PAYMENT_METHODS))[:8]) + ", ..."` — the
preview of valid values interpolated into the invalid-payment-method
message. -/
def allowedPreview : String :=
  String.intercalate ", " ((sortStrings ALLOWED_PAYMENT_METHODS).take 8) ++ ", ..."

/-- Structured model of the `ValueError`s / `RuntimeError`s raised by the
source.  Each constructor corresponds to one `raise` site and carries the
values interpolated into that site's message string. -/
inductive Erro where
  | formaPagamentoInvalida (raw : String) (preview : String)
  | colunasAusentes (faltando : List String)
  | limiteLinhas (max : Nat)
  | limitePedidos (max : Nat)
  | valorInvalido (s : String)
  | grupoVazio (pid : String)
  | customerTipoInvalido
  | cpfInvalido
  | cnpjInvalido
  | dataInvalida (s : String)
  | itemTipoInvalido (pid : String) (tipo : String)
  | quantidadeInvalida (pid : String)
  | unitPriceInvalido (pid : String)
  | pagamentoInvalido (pid : String)
  | totalDeclaradoDiff (declarado totalCalc : ℚ) (pid : String)
  | somaPagamentosDiff (somaPag totalCalc : ℚ) (pid : String)
  | produtoNaoEncontrado (codigo : String)
  | servicoNaoEncontrado (codigo : String)
  | nenhumItem
  | nenhumaParcela
  | multiplasFormas
  | parcelaInvalida
  | clienteSemId
  | numeroObrigatorio (pid : String)
  | tokenInvalido
  | apiErro (msg : String)
  deriving DecidableEq, Repr

/-- `_normalize_payment_method` of the source: normalize the token, accept
canonical values, then aliases, then the `PIX…`/`BOLETO…` prefix fallbacks,
else fail with a message naming the raw value and the preview of valid
values. -/
def _normalize_payment_method (raw : String) : Except Erro String :=
  let key := _normalize_token raw
  if key ∈ ALLOWED_PAYMENT_METHODS then .ok key
  else
    match PAYMENT_ALIASES.lookup key with
    | some v => .ok v
    | none =>
      if key.startsWith "PIX" then .ok "PIX"
      else if key.startsWith "BOLETO" then .ok "BOLETO_BANCARIO"
      else .error (.formaPagamentoInvalida raw allowedPreview)

/-! ### Rounding and number parsing -/

/-- Floor of a rational, computed directly on numerator/denominator
(`Int.fdiv` is floor division). -/
def floorQ (q : ℚ) : ℤ :=
  Int.fdiv q.num q.den

/-- Round a rational to the nearest integer, ties to even — the rounding of
Python's builtin `round`. -/
def roundHalfEven (q : ℚ) : ℤ :=
  let n := floorQ q
  let r := q - (n : ℚ)
  if r < 1/2 then n
  else if 1/2 < r then n + 1
  else if n % 2 = 0 then n else n + 1

/-- Python `round(x, 2)`: round to two decimal places, ties to even. -/
def round2 (q : ℚ) : ℚ :=
  (roundHalfEven (q * 100) : ℚ) / 100

/-- Value of a decimal digit string, most significant digit first. -/
def digitsToNat (cs : List Char) : Nat :=
  cs.foldl (fun n c => 10 * n + (c.toNat - 48)) 0

/-- Python `"".join(ch for ch in str(s) if ch.isdigit())`
(`VendaService._only_digits`). -/
def _only_digits (s : String) : String :=
  String.mk (s.data.filter Char.isDigit)

/-- Python `float(s)` on a plain decimal literal: optional sign, digits, an
optional `.` with further digits, at least one digit in total.  (Python's
`float` additionally accepts exponents, `inf`/`nan` spellings and digit
underscores; those forms are not exercised by this pipeline and are
rejected here.)  Fails like `float` fails: with a `ValueError`.  The
optional leading sign is handled by `pySign`: the sign factor and the
remaining characters. -/
def pySign (cs : List Char) : ℚ × List Char :=
  match cs with
  | c :: t => if c = '-' then (-1, t) else if c = '+' then (1, t) else (1, c :: t)
  | [] => (1, [])

/-- Everything before the decimal point: the split predicate. -/
def notDot (c : Char) : Bool := c ≠ '.'

/-- The digit-string parsing of Python `float` after the sign (see
`pySign`). -/
def pyFloat (orig : String) (cs : List Char) : Except Erro ℚ :=
  let sc := pySign cs
  let intPart := sc.2.takeWhile notDot
  match sc.2.dropWhile notDot with
  | [] =>
    if intPart ≠ [] ∧ intPart.all Char.isDigit then
      .ok (sc.1 * (digitsToNat intPart : ℚ))
    else .error (.valorInvalido orig)
  | _ :: frac =>
    if (intPart ≠ [] ∨ frac ≠ []) ∧ intPart.all Char.isDigit ∧ frac.all Char.isDigit then
      .ok (sc.1 * ((digitsToNat intPart : ℚ) + (digitsToNat frac : ℚ) / 10 ^ frac.length))
    else .error (.valorInvalido orig)

/-- A spreadsheet cell as seen by the parsing code: a string, a number, or a
missing value (`NaN`, for which `pd.isna` is true). -/
inductive Cell where
  | str (s : String)
  | num (q : ℚ)
  | empty
  deriving DecidableEq, Repr

/-- Rendering of a cell as Python `str(val)` (used for text columns).  A
missing value renders as `"nan"`, like `str(float("nan"))`.  Numeric cells
only occur as integers in this development; they render like Python floats
(`str(2.0) = "2.0"`). -/
def cellStr : Cell → String
  | .str s => s
  | .num q => if q.den = 1 then toString q.num ++ ".0" else toString q.num ++ "/" ++ toString q.den
  | .empty => "nan"

/-- `VendaService._to_num`: `0.0` for missing/empty values, otherwise
`float(str(val).strip().replace(",", "."))`.  For a numeric cell the
`str`/`float` round trip is the identity.  A one-character `str.replace` is
a character map.  Note this *raises* on unparseable strings — `float`
raises `ValueError`. -/
def _to_num (val : Cell) : Except Erro ℚ :=
  match val with
  | .empty => .ok 0
  | .num q => .ok q
  | .str s =>
    if s = "" then .ok 0
    else
      let t := (pyStrip s.data).map (fun c => if c = ',' then '.' else c)
      pyFloat s t

/-! ### Calendar dates (`datetime.strptime(s, "%Y-%m-%d")` and day offsets) -/

/-- A parsed calendar date. -/
structure PDate where
  y : Nat
  m : Nat
  d : Nat
  deriving DecidableEq, Repr

/-- Number of days of month `m` in year `y` (proleptic Gregorian, as used by
`datetime.date`). -/
def daysInMonth (y m : Nat) : Nat :=
  if m = 2 then
    if y % 4 = 0 ∧ (y % 100 ≠ 0 ∨ y % 400 = 0) then 29 else 28
  else if m = 4 ∨ m = 6 ∨ m = 9 ∨ m = 11 then 30
  else 31

/-- `datetime.strptime(s, "%Y-%m-%d")`, as a validity check plus field
extraction: a four-digit year, a one- or two-digit month in `1..12`, a one-
or two-digit day valid for that month, separated by `-`, with nothing left
over.  Returns `none` exactly when `strptime` raises `ValueError`. -/
def strptimeYmd (s : String) : Option PDate :=
  match s.splitOn "-" with
  | [ys, ms, ds] =>
    if ys.length = 4 ∧ ys.data.all Char.isDigit ∧
       1 ≤ ms.length ∧ ms.length ≤ 2 ∧ ms.data.all Char.isDigit ∧
       1 ≤ ds.length ∧ ds.length ≤ 2 ∧ ds.data.all Char.isDigit then
      let y := digitsToNat ys.data
      let m := digitsToNat ms.data
      let d := digitsToNat ds.data
      if 1 ≤ m ∧ m ≤ 12 ∧ 1 ≤ d ∧ d ≤ daysInMonth y m then
        some ⟨y, m, d⟩
      else none
    else none
  | _ => none

/-- Day number of a date in the proleptic Gregorian calendar (days-from-civil
algorithm; truncating `Int` division, as in the C idiom).  Differences of
this function model Python's `(date1 - date2).days`. -/
def civilDays (dt : PDate) : ℤ :=
  let y : ℤ := if dt.m ≤ 2 then (dt.y : ℤ) - 1 else (dt.y : ℤ)
  let era : ℤ := (if 0 ≤ y then y else y - 399) / 400
  let yoe : ℤ := y - era * 400
  let doy : ℤ := (153 * ((dt.m : ℤ) + (if 2 < dt.m then -3 else 9)) + 2) / 5 + (dt.d : ℤ) - 1
  let doe : ℤ := yoe * 365 + yoe / 4 - yoe / 100 + doy
  era * 146097 + doe - 719468

/-- Left-pad a numeral with zeros. -/
def padNum (width n : Nat) : String :=
  let s := toString n
  String.mk (List.replicate (width - s.length) '0') ++ s

/-- `strftime("%Y-%m-%d")` of a parsed date. -/
def isoStr (dt : PDate) : String :=
  padNum 4 dt.y ++ "-" ++ padNum 2 dt.m ++ "-" ++ padNum 2 dt.d

/-! ### Column-header normalization (`_norm_colname`, `_rename_columns_ptbr`) -/

/-- Helper for `re.sub(r"[^a-z0-9]+", "_", s)`: replace each maximal run of
characters outside `[a-z0-9]` by a single `_`.  `inRun` records whether the
previous character belonged to such a run. -/
def collapseNonAlnum : Bool → List Char → List Char
  | _, [] => []
  | inRun, c :: rest =>
    if ('a' ≤ c ∧ c ≤ 'z') ∨ ('0' ≤ c ∧ c ≤ '9') then
      c :: collapseNonAlnum false rest
    else if inRun then collapseNonAlnum true rest
    else '_' :: collapseNonAlnum true rest

/-- Python `s.strip("_")`. -/
def stripUnderscores (cs : List Char) : List Char :=
  ((cs.dropWhile (fun c => c = '_')).reverse.dropWhile (fun c => c = '_')).reverse

/-- `_norm_colname` of the source: NFKD-fold accents away, lower-case, strip,
collapse non-alphanumeric runs to `_`, strip outer `_`. -/
def _norm_colname (name : String) : String :=
  String.mk (stripUnderscores (collapseNonAlnum false
    (pyStrip ((name.data.map foldChar).map Char.toLower))))

/-- `PTBR_TO_INTERNAL` of the source. -/
def PTBR_TO_INTERNAL : List (String × String) :=
  [("numero", "pedido_id"),
   ("data_da_venda", "sale_date"),
   ("situacao", "status"),
   ("tipo_do_cliente", "customer_tipo"),
   ("nome_do_cliente", "customer_nome"),
   ("documento_do_cliente", "customer_documento"),
   ("observacoes", "observacao"),
   ("custo_de_frete", "shipping_cost"),
   ("tipo_do_item", "item_tipo"),
   ("codigo_do_item", "item_codigo"),
   ("quantidade", "item_quantidade"),
   ("valor_unitario", "item_unit_price"),
   ("metodo_de_pagamento", "payment_method"),
   ("valor_da_parcela", "payment_amount"),
   ("vencimento_da_parcela", "payment_due_date"),
   ("conta_financeira_id", "id_conta_financeira")]

/-- `IDENTITY_INTERNAL` of the source. -/
def IDENTITY_INTERNAL : List (String × String) :=
  [("pedido_id", "pedido_id"),
   ("sale_date", "sale_date"),
   ("status", "status"),
   ("customer_tipo", "customer_tipo"),
   ("customer_nome", "customer_nome"),
   ("customer_documento", "customer_documento"),
   ("observacao", "observacao"),
   ("shipping_cost", "shipping_cost"),
   ("item_tipo", "item_tipo"),
   ("item_codigo", "item_codigo"),
   ("item_quantidade", "item_quantidade"),
   ("item_unit_price", "item_unit_price"),
   ("payment_method", "payment_method"),
   ("payment_amount", "payment_amount"),
   ("payment_due_date", "payment_due_date"),
   ("id_conta_financeira", "id_conta_financeira"),
   ("total_declarado", "total_declarado")]

/-- `_rename_columns_ptbr` of the source, applied to one column name:
normalize, then map through the PT-BR table, the identity table, or keep
the normalized name. -/
def renameColumn (c : String) : String :=
  let key := _norm_colname c
  match PTBR_TO_INTERNAL.lookup key with
  | some internal => internal
  | none =>
    match IDENTITY_INTERNAL.lookup key with
    | some internal => internal
    | none => key

/-! ### Data model (the `@dataclass`es and the normalized table) -/

/-- One normalized spreadsheet row after `parse_planilha` (one row = one item
plus the installment fields carried on the same row).  Fields mirror the
internal column names. -/
structure Row where
  pedido_id : String
  sale_date : String
  status : String
  customer_tipo : String
  customer_nome : String
  customer_documento : String
  observacao : String
  shipping_cost : ℚ
  total_declarado : Option ℚ
  item_tipo : String
  item_codigo : String
  item_quantidade : ℚ
  item_unit_price : ℚ
  payment_method : String
  payment_amount : ℚ
  payment_due_date : String
  id_conta_financeira : String
  deriving DecidableEq, Repr

/-- `VendaItem` dataclass. -/
structure VendaItem where
  tipo : String
  codigo : String
  quantidade : ℚ
  unit_price : ℚ
  id_resolvido : Option String := none
  deriving DecidableEq, Repr

/-- `ParcelaPagamento` dataclass. -/
structure ParcelaPagamento where
  metodo : String
  valor : ℚ
  vencimento : String
  deriving DecidableEq, Repr

/-- `CabecalhoVenda` dataclass. -/
structure CabecalhoVenda where
  pedido_id : String
  sale_date : String
  status : String
  cliente_tipo : String
  cliente_nome : String
  cliente_documento : String
  shipping_cost : ℚ
  total_declarado : Option ℚ
  observacao : String
  conta_financeira_id : Option String := none
  deriving DecidableEq, Repr

/-- `VendaMontada` dataclass. -/
structure VendaMontada where
  header : CabecalhoVenda
  itens : List VendaItem
  payments : List ParcelaPagamento
  deriving DecidableEq, Repr

/-! ### `parse_planilha` -/

/-- Defensive limits of the source. -/
def MAX_ROWS : Nat := 2000

def MAX_ORDERS : Nat := 500

/-- An uploaded table: a header of column names and one list of cells per
row, positionally aligned with the header. -/
structure Sheet where
  cols : List String
  rows : List (List Cell)
  deriving Repr

/-- The `obrig` list of required internal column names in `parse_planilha`. -/
def obrig : List String :=
  ["pedido_id", "sale_date", "customer_tipo", "customer_nome",
   "customer_documento", "item_tipo", "item_codigo", "item_quantidade",
   "item_unit_price", "payment_method", "payment_amount", "payment_due_date"]

/-- `pd.to_datetime(col, errors="coerce").dt.strftime("%Y-%m-%d")` applied to
one cell: a parseable ISO date string is normalized to `YYYY-MM-DD`;
anything else becomes `NaT`, which `strftime` turns into `NaN`, which later
`str()` renders as `"nan"`.  (Only the ISO input format is modelled;
`pd.to_datetime`'s other accepted formats and numeric epoch cells are
treated as unparseable.) -/
def dateCoerce (c : Cell) : String :=
  match c with
  | .str s =>
    match strptimeYmd (stripStr s) with
    | some d => isoStr d
    | none => "nan"
  | _ => "nan"

/-- Cell of the (renamed) column `c` in a row, `Cell.empty` (i.e. `NaN`) when
the column is shorter than the header or absent. -/
def getCell (cols : List String) (cells : List Cell) (c : String) : Cell :=
  match (cols.zip cells).lookup c with
  | some v => v
  | none => .empty

/-- The per-row work of `parse_planilha` after the structural checks: strip
the order id, coerce the numeric columns with `_to_num` (which can raise),
coerce the date columns, reduce the document to digits, and fill the
defaults for absent optional columns. -/
def buildRow (cols : List String) (cells : List Cell) : Except Erro Row :=
  match _to_num (getCell cols cells "item_quantidade") with
  | .error e => .error e
  | .ok qtd =>
  match _to_num (getCell cols cells "item_unit_price") with
  | .error e => .error e
  | .ok price =>
  match _to_num (getCell cols cells "payment_amount") with
  | .error e => .error e
  | .ok pay =>
  match (if "shipping_cost" ∈ cols then _to_num (getCell cols cells "shipping_cost") else .ok 0) with
  | .error e => .error e
  | .ok ship =>
  match (if "total_declarado" ∈ cols
         then (_to_num (getCell cols cells "total_declarado")).map some
         else .ok none) with
  | .error e => .error e
  | .ok decl =>
    .ok { pedido_id := stripStr (cellStr (getCell cols cells "pedido_id"))
          sale_date := dateCoerce (getCell cols cells "sale_date")
          status := if "status" ∈ cols then cellStr (getCell cols cells "status") else "EM_ABERTO"
          customer_tipo := cellStr (getCell cols cells "customer_tipo")
          customer_nome := cellStr (getCell cols cells "customer_nome")
          customer_documento := _only_digits (cellStr (getCell cols cells "customer_documento"))
          observacao := if "observacao" ∈ cols then cellStr (getCell cols cells "observacao") else ""
          shipping_cost := ship
          total_declarado := decl
          item_tipo := cellStr (getCell cols cells "item_tipo")
          item_codigo := cellStr (getCell cols cells "item_codigo")
          item_quantidade := qtd
          item_unit_price := price
          payment_method := cellStr (getCell cols cells "payment_method")
          payment_amount := pay
          payment_due_date := dateCoerce (getCell cols cells "payment_due_date")
          id_conta_financeira := if "id_conta_financeira" ∈ cols then cellStr (getCell cols cells "id_conta_financeira") else "" }

/-- The columns required by `obrig` that are missing after renaming. -/
def faltandoCols (sheet : Sheet) : List String :=
  obrig.filter (fun c => ¬ c ∈ sheet.cols.map renameColumn)

/-- `VendaService.parse_planilha`: rename the columns, fail when required
columns are missing, fail when the row count exceeds `MAX_ROWS`, then
normalize every row. -/
def parse_planilha (sheet : Sheet) : Except Erro (List Row) :=
  let cols := sheet.cols.map renameColumn
  if faltandoCols sheet ≠ [] then .error (.colunasAusentes (faltandoCols sheet))
  else if MAX_ROWS < sheet.rows.length then .error (.limiteLinhas MAX_ROWS)
  else sheet.rows.mapM (buildRow cols)

/-! ### `_montar_por_pedido` (order grouper & validator) -/

/-- Python `str.upper()` (ASCII repertoire; accented letters do not occur in
the enum fields this is applied to). -/
def pyUpper (s : String) : String :=
  String.mk (s.data.map Char.toUpper)

/-- The header built from the first row of a group (the `CabecalhoVenda(...)`
construction in `_montar_por_pedido`).  `status` applies the
`r0.get("status", "EM_ABERTO") or "EM_ABERTO"` default, and the financial
account id applies `str(...).strip() or None`. -/
def mkHeader (pid : String) (r0 : Row) : CabecalhoVenda :=
  { pedido_id := pid
    sale_date := r0.sale_date
    status := if r0.status = "" then "EM_ABERTO" else r0.status
    cliente_tipo := stripStr (pyUpper r0.customer_tipo)
    cliente_nome := stripStr r0.customer_nome
    cliente_documento := stripStr r0.customer_documento
    shipping_cost := r0.shipping_cost
    total_declarado := r0.total_declarado
    observacao := r0.observacao
    conta_financeira_id :=
      if stripStr r0.id_conta_financeira = "" then none
      else some (stripStr r0.id_conta_financeira) }

/-- The header checks of `_montar_por_pedido`: customer type enum, document
length by type, and a strict `strptime` of the sale date. -/
def checkHeader (h : CabecalhoVenda) : Except Erro Unit :=
  if ¬ (h.cliente_tipo = "FISICA" ∨ h.cliente_tipo = "JURIDICA" ∨ h.cliente_tipo = "ESTRANGEIRA") then
    .error .customerTipoInvalido
  else if h.cliente_tipo = "FISICA" ∧ h.cliente_documento.length ≠ 11 then
    .error .cpfInvalido
  else if h.cliente_tipo = "JURIDICA" ∧ h.cliente_documento.length ≠ 14 then
    .error .cnpjInvalido
  else
    match strptimeYmd h.sale_date with
    | none => .error (.dataInvalida h.sale_date)
    | some _ => .ok ()

/-- The item loop of `_montar_por_pedido`: build one `VendaItem` per row of
the group, checking kind, quantity and unit price, while accumulating the
running item subtotal `total_itens`. -/
def buildItens (pid : String) : List Row → Except Erro (List VendaItem × ℚ)
  | [] => .ok ([], 0)
  | r :: rs =>
    let tipo := stripStr (pyUpper r.item_tipo)
    if ¬ (tipo = "PRODUTO" ∨ tipo = "SERVICO") then
      .error (.itemTipoInvalido pid tipo)
    else if r.item_quantidade ≤ 0 then
      .error (.quantidadeInvalida pid)
    else if r.item_unit_price < 0 then
      .error (.unitPriceInvalido pid)
    else
      match buildItens pid rs with
      | .error e => .error e
      | .ok (its, t) =>
        .ok ({ tipo := tipo, codigo := stripStr r.item_codigo,
               quantidade := r.item_quantidade, unit_price := r.item_unit_price } :: its,
             r.item_quantidade * r.item_unit_price + t)

/-- The installment loop of `_montar_por_pedido`: build one
`ParcelaPagamento` per row of the group, checking the amount and strictly
parsing the due date, while accumulating the running sum `soma_pag`. -/
def buildPayments (pid : String) : List Row → Except Erro (List ParcelaPagamento × ℚ)
  | [] => .ok ([], 0)
  | r :: rs =>
    let pm : ParcelaPagamento :=
      { metodo := stripStr (pyUpper r.payment_method),
        valor := r.payment_amount, vencimento := r.payment_due_date }
    if pm.valor ≤ 0 then
      .error (.pagamentoInvalido pid)
    else
      match strptimeYmd pm.vencimento with
      | none => .error (.dataInvalida pm.vencimento)
      | some _ =>
        match buildPayments pid rs with
        | .error e => .error e
        | .ok (ps, s) => .ok (pm :: ps, r.payment_amount + s)

/-- The declared-total check of `_montar_por_pedido`: when `total_declarado`
is present, its two-decimal rounding must equal the computed total, else
the order is rejected with a message naming the declared value and the
computed total. -/
def checkDeclarado (pid : String) (h : CabecalhoVenda) (totalCalc : ℚ) : Except Erro Unit :=
  match h.total_declarado with
  | none => .ok ()
  | some d =>
    if round2 d = totalCalc then .ok ()
    else .error (.totalDeclaradoDiff d totalCalc pid)

/-- The body of the `for pid in pedidos` loop of `_montar_por_pedido`: all
per-order validation for one group of rows (the `try` block).  Any failure
is the `ValueError` that the loop catches and records for this `pid`. -/
def montarPedido (pid : String) (bloco : List Row) : Except Erro VendaMontada :=
  match bloco with
  | [] => .error (.grupoVazio pid)
  | r0 :: _ =>
    let header := mkHeader pid r0
    match checkHeader header with
    | .error e => .error e
    | .ok _ =>
      match buildItens pid bloco with
      | .error e => .error e
      | .ok (itens, totalItens) =>
        match buildPayments pid bloco with
        | .error e => .error e
        | .ok (payments, somaPag) =>
          let totalCalc := round2 (totalItens + header.shipping_cost)
          match checkDeclarado pid header totalCalc with
          | .error e => .error e
          | .ok _ =>
            if round2 somaPag = totalCalc then
              .ok ⟨header, itens, payments⟩
            else
              .error (.somaPagamentosDiff (round2 somaPag) totalCalc pid)

/-- First-occurrence distinct values, with an accumulator of already-seen
values (`df["pedido_id"].unique()` keeps first occurrences in order). -/
def uniqAux : List String → List String → List String
  | [], _ => []
  | x :: xs, seen =>
    if x ∈ seen then uniqAux xs seen else x :: uniqAux xs (x :: seen)

/-- `df["pedido_id"].unique().tolist()`. -/
def pedidosUnicos (df : List Row) : List String :=
  uniqAux (df.map (fun r => r.pedido_id)) []

/-- `df[df["pedido_id"] == pid]`: the group of rows of one order. -/
def grupo (df : List Row) (pid : String) : List Row :=
  df.filter (fun r => r.pedido_id == pid)

/-- One recorded per-order validation error
(`erros.append({"pedido_id": pid, "erro": str(e)})`). -/
structure ErroReg where
  pedido_id : String
  erro : Erro
  deriving DecidableEq, Repr

/-- The `for pid in pedidos` loop of `_montar_por_pedido`: a failed group is
recorded in the error list keyed by its order id, a successful group emits
its aggregate; either way the remaining groups are processed. -/
def montarLoop (df : List Row) : List String → List VendaMontada × List ErroReg
  | [] => ([], [])
  | pid :: rest =>
    match montarPedido pid (grupo df pid) with
    | .ok v =>
      let r := montarLoop df rest
      (v :: r.1, r.2)
    | .error e =>
      let r := montarLoop df rest
      (r.1, ⟨pid, e⟩ :: r.2)

/-- `VendaService._montar_por_pedido`: hard abort when the distinct order
count exceeds `MAX_ORDERS`, otherwise the per-group loop. -/
def _montar_por_pedido (df : List Row) : Except Erro (List VendaMontada × List ErroReg) :=
  let pedidos := pedidosUnicos df
  if MAX_ORDERS < pedidos.length then .error (.limitePedidos MAX_ORDERS)
  else .ok (montarLoop df pedidos)

/-! ### `_resolver_itens_e_payload` (payload builder) -/

/-- One entry of the `itens` payload list
(`{"id": ..., "quantidade": ..., "valor": ...}`). -/
structure ItemPayload where
  id : String
  quantidade : ℚ
  valor : ℚ
  deriving DecidableEq, Repr

/-- One entry of the `parcelas` payload list
(`{"data_vencimento": ..., "valor": ...}`). -/
structure ParcelaPag where
  data_vencimento : String
  valor : ℚ
  deriving DecidableEq, Repr

/-- The `condicao_pagamento` payload object. -/
structure CondPag where
  tipo_pagamento : String
  opcao_condicao_pagamento : String
  parcelas : List ParcelaPag
  id_conta_financeira : Option String
  deriving DecidableEq, Repr

/-- The creation payload built by `_resolver_itens_e_payload`.  The optional
keys `composicao_de_valor.frete` and `observacoes` are modelled as
`Option` fields present exactly when the source adds the key. -/
structure Payload where
  id_cliente : String
  numero : Nat
  data_venda : String
  situacao : String
  itens : List ItemPayload
  condicao_pagamento : CondPag
  composicao_frete : Option ℚ
  observacoes : Option String
  deriving DecidableEq, Repr

/-- The external collaborators of the pipeline: the token check, the remote
search/creation calls behind `_resolve_produto_id`, `_resolve_servico_id`
and `_resolve_or_create_customer`, the sale-creation `api_post`, and the
optional financial-account id from `st.secrets`.  A `none` from the item
resolvers models exhaustion of all fallback search strategies; the
customer resolver and `api_post` can fail with any error. -/
structure Env where
  hasValidToken : Bool
  resolveProduto : String → Option String
  resolveServico : String → Option String
  resolveOrCreateCustomer : String → String → String → Except Erro String
  apiPost : Payload → Except Erro (Option String)
  idContaFinanceira : Option String

/-- Step 1 of `_resolver_itens_e_payload`: resolve every line item to a
remote id (failing per item kind), then reject an empty item list. -/
def resolverItensLoop (env : Env) : List VendaItem → Except Erro (List ItemPayload)
  | [] => .ok []
  | it :: rest =>
    let rid? := if it.tipo = "PRODUTO" then env.resolveProduto it.codigo else env.resolveServico it.codigo
    match rid? with
    | none =>
      .error (if it.tipo = "PRODUTO" then .produtoNaoEncontrado it.codigo
              else .servicoNaoEncontrado it.codigo)
    | some rid =>
      match resolverItensLoop env rest with
      | .error e => .error e
      | .ok rest' => .ok ({ id := rid, quantidade := it.quantidade, valor := it.unit_price } :: rest')

/-- Step 1 of `_resolver_itens_e_payload` including the final
`if not itens_payload` check. -/
def resolverItens (env : Env) (itens : List VendaItem) : Except Erro (List ItemPayload) :=
  match resolverItensLoop env itens with
  | .error e => .error e
  | .ok l => if l = [] then .error .nenhumItem else .ok l

/-- `VendaService._infer_opcao_condicao_pagamento`: one installment is cash
payment; several installments whose amounts agree (two-decimal rounding,
then a strict one-cent tolerance against the first) are `Nx`; otherwise
the comma-joined day offsets from the sale date to each due date, clamped
below at zero — falling back to `Nx` when any date fails to parse (the
`try`/`except` of the source). -/
def _infer_opcao_condicao_pagamento (data_venda : String) (parcelas : List ParcelaPag) : String :=
  if parcelas.length = 0 then "À vista"
  else if parcelas.length = 1 then "À vista"
  else
    let valores := parcelas.map (fun p => round2 p.valor)
    let iguais := valores.all (fun v => |v - valores.headD 0| < 1/100)
    if iguais then toString parcelas.length ++ "x"
    else
      match strptimeYmd data_venda with
      | none => toString parcelas.length ++ "x"
      | some base =>
        match parcelas.mapM (fun p => strptimeYmd p.data_vencimento) with
        | none => toString parcelas.length ++ "x"
        | some dues =>
          String.intercalate ", "
            (dues.map (fun due => toString (max 0 (civilDays due - civilDays base))))

/-- A left-to-right traversal that stops at the first raised error — the
shape of every per-element loop in `_resolver_itens_e_payload`. -/
def mapExcept (f : α → Except Erro β) : List α → Except Erro (List β)
  | [] => .ok []
  | x :: xs =>
    match f x with
    | .error e => .error e
    | .ok y =>
      match mapExcept f xs with
      | .error e => .error e
      | .ok ys => .ok (y :: ys)

/-- Step 2 of `_resolver_itens_e_payload`: require at least one installment,
canonicalize every installment's payment method (the first unmappable one
raises), require a single canonical method, re-check the installment
amounts, infer the payment-plan descriptor, and attach the optional
financial-account id from the environment (`st.secrets`; the Python
truthiness test drops an empty string). -/
def montarCondicao (env : Env) (venda : VendaMontada) : Except Erro CondPag :=
  if venda.payments = [] then .error .nenhumaParcela
  else
    match mapExcept (fun p => _normalize_payment_method p.metodo) venda.payments with
    | .error e => .error e
    | .ok metodos =>
      let distintos := uniqAux metodos []
      if distintos.length ≠ 1 then .error .multiplasFormas
      else
        match mapExcept
          (fun p => if p.valor ≤ 0 then Except.error Erro.parcelaInvalida
                    else Except.ok { data_vencimento := p.vencimento, valor := p.valor : ParcelaPag })
          venda.payments with
        | .error e => .error e
        | .ok parcelas =>
          let opcao := _infer_opcao_condicao_pagamento venda.header.sale_date parcelas
          .ok { tipo_pagamento := distintos.headD ""
                opcao_condicao_pagamento := opcao
                parcelas := parcelas
                id_conta_financeira :=
                  match env.idContaFinanceira with
                  | some s => if s = "" then none else some s
                  | none => none }

/-- Step 4 of `_resolver_itens_e_payload`: the digits of the order id, as an
integer; a digit-free order id is a per-order failure. -/
def resolverNumero (pid : String) : Except Erro Nat :=
  let soDigitos := pid.data.filter Char.isDigit
  if soDigitos = [] then .error (.numeroObrigatorio pid)
  else .ok (digitsToNat soDigitos)

/-- Step 5 of `_resolver_itens_e_payload`: `str(status or "").upper().strip()`
with `""`/`"EM_ABERTO"` mapped to `"EM_ANDAMENTO"`. -/
def resolverSituacao (status : String) : String :=
  let situacao := stripStr (pyUpper status)
  if situacao = "" ∨ situacao = "EM_ABERTO" then "EM_ANDAMENTO" else situacao

/-- `VendaService._resolver_itens_e_payload`: items, payment condition,
customer, order number, status, then the assembled payload with shipping
only when positive and the note only when non-empty. -/
def _resolver_itens_e_payload (env : Env) (venda : VendaMontada) : Except Erro Payload :=
  match resolverItens env venda.itens with
  | .error e => .error e
  | .ok itensPayload =>
    match montarCondicao env venda with
    | .error e => .error e
    | .ok condicao =>
      match env.resolveOrCreateCustomer venda.header.cliente_tipo venda.header.cliente_nome venda.header.cliente_documento with
      | .error e => .error e
      | .ok clienteId =>
        match resolverNumero venda.header.pedido_id with
        | .error e => .error e
        | .ok numero =>
          .ok { id_cliente := clienteId
                numero := numero
                data_venda := venda.header.sale_date
                situacao := resolverSituacao venda.header.status
                itens := itensPayload
                condicao_pagamento := condicao
                composicao_frete :=
                  if 0 < venda.header.shipping_cost then some venda.header.shipping_cost else none
                observacoes :=
                  if venda.header.observacao ≠ "" then some venda.header.observacao else none }

/-! ### `processar_upload` (batch submitter) -/

/-- One row of the result report. -/
structure Resultado where
  pedido_id : String
  status : String
  sale_id : Option String
  mensagem : Option Erro
  deriving DecidableEq, Repr

/-- The body of the per-order `try` in `processar_upload`: build the payload
and call the remote creation endpoint. -/
def criarVendaRemota (env : Env) (venda : VendaMontada) : Except Erro (Option String) :=
  match _resolver_itens_e_payload env venda with
  | .error e => .error e
  | .ok payload => env.apiPost payload

/-- One iteration of the submission loop: any exception from resolution,
payload construction or the creation call becomes an `"erro"` row; success
becomes a `"criada"` row with the extracted sale id. -/
def processVenda (env : Env) (venda : VendaMontada) : Resultado :=
  match criarVendaRemota env venda with
  | .ok saleId =>
    { pedido_id := venda.header.pedido_id, status := "criada", sale_id := saleId, mensagem := none }
  | .error e =>
    { pedido_id := venda.header.pedido_id, status := "erro", sale_id := none, mensagem := some e }

/-- The submission loop of `processar_upload` over the validated orders. -/
def submeterVendas (env : Env) (vendas : List VendaMontada) : List Resultado :=
  vendas.map (processVenda env)

/-- The `resumo` summary dictionary. -/
structure Resumo where
  total_pedidos : Nat
  sucesso : Nat
  erros : Nat
  deriving DecidableEq, Repr

/-- The report returned by `processar_upload`. -/
structure Report where
  resumo : Resumo
  resultados : List Resultado
  errosMontagem : List ErroReg
  deriving Repr

/-- `VendaService.processar_upload`: token check, parse, group/validate,
submit each validated order, then the summary.  (`pandas`' behaviour of
raising on an empty result frame's missing `status` column is not
modelled; the counts are computed directly from the result rows.) -/
def processar_upload (env : Env) (sheet : Sheet) : Except Erro Report :=
  if ¬ env.hasValidToken then .error .tokenInvalido
  else
    match parse_planilha sheet with
    | .error e => .error e
    | .ok df =>
      match _montar_por_pedido df with
      | .error e => .error e
      | .ok (vendas, errosMontagem) =>
        let resultados := submeterVendas env vendas
        .ok { resumo := { total_pedidos := vendas.length
                          sucesso := resultados.countP (fun r => r.status == "criada")
                          erros := resultados.countP (fun r => r.status == "erro") }
              resultados := resultados
              errosMontagem := errosMontagem }

/-! ### Derived sums and helper lemmas -/

/-- Sum of `quantity × unit_price` over a list of line items. -/
def itensSum (its : List VendaItem) : ℚ :=
  (its.map (fun it => it.quantidade * it.unit_price)).sum

/-- Sum of installment amounts over a list of installments. -/
def parcelasSum (ps : List ParcelaPagamento) : ℚ :=
  (ps.map (fun p => p.valor)).sum

/-- Sum of `item_quantidade × item_unit_price` over the rows of a group. -/
def rowsItemSum (rows : List Row) : ℚ :=
  (rows.map (fun r => r.item_quantidade * r.item_unit_price)).sum

/-- Sum of `payment_amount` over the rows of a group. -/
def rowsPagSum (rows : List Row) : ℚ :=
  (rows.map (fun r => r.payment_amount)).sum

/-- The shipping cost a group's header gets: the first row's. -/
def blocoShipping : List Row → ℚ
  | [] => 0
  | r :: _ => r.shipping_cost

theorem buildItens_ok_sum (pid : String) :
    ∀ (rows : List Row) (its : List VendaItem) (t : ℚ),
      buildItens pid rows = .ok (its, t) → t = itensSum its ∧ t = rowsItemSum rows := by
  intro rows
  induction rows with
  | nil =>
    intro its t h
    simp only [buildItens] at h
    cases h
    simp [itensSum, rowsItemSum]
  | cons r rs ih =>
    intro its t h
    simp only [buildItens] at h
    split at h
    · exact Except.noConfusion h
    · split at h
      · exact Except.noConfusion h
      · split at h
        · exact Except.noConfusion h
        · split at h
          · exact Except.noConfusion h
          · rename_i its' t' heq
            cases h
            obtain ⟨h1, h2⟩ := ih its' t' heq
            constructor
            · simp [itensSum, List.map_cons, List.sum_cons]
              rw [itensSum] at h1
              rw [h1]
            · simp [rowsItemSum, List.map_cons, List.sum_cons]
              rw [rowsItemSum] at h2
              rw [h2]

theorem buildPayments_ok_sum (pid : String) :
    ∀ (rows : List Row) (ps : List ParcelaPagamento) (s : ℚ),
      buildPayments pid rows = .ok (ps, s) → s = parcelasSum ps ∧ s = rowsPagSum rows := by
  intro rows
  induction rows with
  | nil =>
    intro ps s h
    simp only [buildPayments] at h
    cases h
    simp [parcelasSum, rowsPagSum]
  | cons r rs ih =>
    intro ps s h
    simp only [buildPayments] at h
    split at h
    · exact Except.noConfusion h
    · split at h
      · exact Except.noConfusion h
      · split at h
        · exact Except.noConfusion h
        · rename_i ps' s' heq
          cases h
          obtain ⟨h1, h2⟩ := ih ps' s' heq
          constructor
          · simp [parcelasSum, List.map_cons, List.sum_cons]
            rw [parcelasSum] at h1
            rw [h1]
          · simp [rowsPagSum, List.map_cons, List.sum_cons]
            rw [rowsPagSum] at h2
            rw [h2]

theorem montarPedido_ok_facts (pid : String) (bloco : List Row) (v : VendaMontada)
    (h : montarPedido pid bloco = .ok v) :
    v.header.pedido_id = pid ∧
    round2 (itensSum v.itens + v.header.shipping_cost) = round2 (parcelasSum v.payments) ∧
    round2 (rowsItemSum bloco + blocoShipping bloco) = round2 (rowsPagSum bloco) := by
  cases bloco with
  | nil =>
    simp only [montarPedido] at h
    exact Except.noConfusion h
  | cons r0 rest =>
    simp only [montarPedido] at h
    split at h
    · exact Except.noConfusion h
    · split at h
      · exact Except.noConfusion h
      · rename_i its t hItens
        split at h
        · exact Except.noConfusion h
        · rename_i ps s hPay
          split at h
          · exact Except.noConfusion h
          · split at h
            · rename_i hEq
              injection h with h2
              subst h2
              obtain ⟨hi1, hi2⟩ := buildItens_ok_sum pid (r0 :: rest) its t hItens
              obtain ⟨hp1, hp2⟩ := buildPayments_ok_sum pid (r0 :: rest) ps s hPay
              refine ⟨by simp [mkHeader], ?_, ?_⟩
              · show round2 (itensSum its + (mkHeader pid r0).shipping_cost) = round2 (parcelasSum ps)
                rw [← hi1, ← hp1]
                exact hEq.symm
              · have hbs : blocoShipping (r0 :: rest) = (mkHeader pid r0).shipping_cost := by
                  simp [blocoShipping, mkHeader]
                rw [hbs, ← hi2, ← hp2]
                exact hEq.symm
            · exact Except.noConfusion h

theorem mem_uniqAux (p : String) :
    ∀ (l seen : List String), p ∈ uniqAux l seen ↔ p ∈ l ∧ p ∉ seen := by
  intro l
  induction l with
  | nil => intro seen; simp [uniqAux]
  | cons x xs ih =>
    intro seen
    simp only [uniqAux]
    split
    · rename_i hx
      rw [ih seen]
      constructor
      · rintro ⟨hl, hs⟩; exact ⟨.tail _ hl, hs⟩
      · rintro ⟨hl, hs⟩
        cases hl with
        | head => exact absurd hx hs
        | tail _ hmem => exact ⟨hmem, hs⟩
    · rename_i hx
      constructor
      · intro hmem
        cases hmem with
        | head => exact ⟨.head _, fun hs => hx hs⟩
        | tail _ hmem' =>
          obtain ⟨hl, hs⟩ := (ih (x :: seen)).1 hmem'
          refine ⟨.tail _ hl, fun hcontra => hs (.tail _ hcontra)⟩
      · rintro ⟨hl, hs⟩
        cases hl with
        | head => exact .head _
        | tail _ hmem =>
          by_cases hpx : p = x
          · subst hpx; exact .head _
          · exact .tail _ ((ih (x :: seen)).2 ⟨hmem, by
              intro hcontra
              cases hcontra with
              | head => exact hpx rfl
              | tail _ hcontra' => exact hs hcontra'⟩)

theorem mem_pedidosUnicos (p : String) (df : List Row) :
    p ∈ pedidosUnicos df ↔ ∃ r ∈ df, r.pedido_id = p := by
  rw [pedidosUnicos, mem_uniqAux]
  simp

theorem montarLoop_mem_ok (df : List Row) (v : VendaMontada) :
    ∀ (pids : List String),
      v ∈ (montarLoop df pids).1 ↔ ∃ pid ∈ pids, montarPedido pid (grupo df pid) = .ok v := by
  intro pids
  induction pids with
  | nil => simp [montarLoop]
  | cons pid rest ih =>
    simp only [montarLoop]
    split
    · rename_i w hw
      constructor
      · intro hmem
        cases hmem with
        | head => exact ⟨pid, .head _, hw⟩
        | tail _ hmem' =>
          obtain ⟨q, hq, hqok⟩ := ih.1 hmem'
          exact ⟨q, .tail _ hq, hqok⟩
      · rintro ⟨q, hq, hqok⟩
        cases hq with
        | head =>
          rw [hw] at hqok
          cases hqok
          exact .head _
        | tail _ hq' => exact .tail _ (ih.2 ⟨q, hq', hqok⟩)
    · rename_i e he
      rw [ih]
      constructor
      · rintro ⟨q, hq, hqok⟩; exact ⟨q, .tail _ hq, hqok⟩
      · rintro ⟨q, hq, hqok⟩
        cases hq with
        | head => rw [he] at hqok; exact Except.noConfusion hqok
        | tail _ hq' => exact ⟨q, hq', hqok⟩

theorem montarLoop_mem_err (df : List Row) (pid : String) (e : Erro) :
    ∀ (pids : List String), pid ∈ pids →
      montarPedido pid (grupo df pid) = .error e →
      (⟨pid, e⟩ : ErroReg) ∈ (montarLoop df pids).2 := by
  intro pids
  induction pids with
  | nil => intro h; cases h
  | cons q rest ih =>
    intro hmem herr
    simp only [montarLoop]
    split
    · rename_i w hw
      cases hmem with
      | head =>
        rw [hw] at herr
        exact Except.noConfusion herr
      | tail _ hmem' => exact ih hmem' herr
    · rename_i e' he'
      cases hmem with
      | head =>
        rw [he'] at herr
        cases herr
        exact .head _
      | tail _ hmem' => exact .tail _ (ih hmem' herr)

/-! ### Claim theorems -/

/-- C1: For every order aggregate emitted by `_montar_por_pedido`,
`round(sum of quantity × unit_price + shipping_cost, 2)` equals
`round(sum of installment amounts, 2)`; and for every input group whose
two rounded values differ, no aggregate is emitted for that order id and a
validation error record keyed by that order id is produced instead. -/
theorem c1_consistencia_financeira :
    ∀ (df : List Row) (res : List VendaMontada) (errs : List ErroReg),
      _montar_por_pedido df = .ok (res, errs) →
      (∀ v ∈ res,
        round2 (itensSum v.itens + v.header.shipping_cost) = round2 (parcelasSum v.payments)) ∧
      (∀ pid ∈ pedidosUnicos df,
        round2 (rowsItemSum (grupo df pid) + blocoShipping (grupo df pid)) ≠
          round2 (rowsPagSum (grupo df pid)) →
        (∀ v ∈ res, v.header.pedido_id ≠ pid) ∧ ∃ er ∈ errs, er.pedido_id = pid) := by
  intro df res errs h
  rw [_montar_por_pedido] at h
  split at h
  · exact Except.noConfusion h
  · injection h with h2
    rw [Prod.mk.injEq] at h2
    obtain ⟨hres, herrs⟩ := h2
    constructor
    · intro v hv
      rw [← hres] at hv
      obtain ⟨pid, _, hok⟩ := (montarLoop_mem_ok df v (pedidosUnicos df)).1 hv
      exact (montarPedido_ok_facts pid (grupo df pid) v hok).2.1
    · intro pid hpid hne
      have hfail : ∀ v, montarPedido pid (grupo df pid) ≠ .ok v := by
        intro v hok
        exact hne (montarPedido_ok_facts pid (grupo df pid) v hok).2.2
      constructor
      · intro v hv hvpid
        rw [← hres] at hv
        obtain ⟨pid', hpid', hok⟩ := (montarLoop_mem_ok df v (pedidosUnicos df)).1 hv
        have : pid' = pid := by
          rw [← hvpid]
          exact ((montarPedido_ok_facts pid' (grupo df pid') v hok).1).symm
        rw [this] at hok
        exact hfail v hok
      · cases herr : montarPedido pid (grupo df pid) with
        | ok v => exact absurd herr (hfail v)
        | error e =>
          refine ⟨⟨pid, e⟩, ?_, rfl⟩
          rw [← herrs]
          exact montarLoop_mem_err df pid e (pedidosUnicos df) hpid herr

/-! ### Concrete sample data for witnesses and counterexamples -/

/-- A fully valid normalized row: one product item of 100, one PIX
installment of 100, no shipping, no declared total. -/
def sampleRow : Row :=
  { pedido_id := "P1"
    sale_date := "2024-01-15"
    status := "EM_ABERTO"
    customer_tipo := "FISICA"
    customer_nome := "Ana"
    customer_documento := "12345678901"
    observacao := ""
    shipping_cost := 0
    total_declarado := none
    item_tipo := "PRODUTO"
    item_codigo := "PRD-1"
    item_quantidade := 1
    item_unit_price := 100
    payment_method := "PIX"
    payment_amount := 100
    payment_due_date := "2024-01-15"
    id_conta_financeira := "" }

/-- A row whose installment sum (90) differs from its item total (100). -/
def sampleRowMismatch : Row :=
  { sampleRow with pedido_id := "P2", payment_amount := 90 }

/-- The error `sampleRowMismatch`'s group is rejected with. -/
def sampleMismatchErro : Erro := .somaPagamentosDiff 90 100 "P2"

/-- An environment in which every remote lookup and the creation call
succeed. -/
def sampleEnv : Env :=
  { hasValidToken := true
    resolveProduto := fun _ => some "PROD-ID"
    resolveServico := fun _ => some "SVC-ID"
    resolveOrCreateCustomer := fun _ _ _ => .ok "CLI-ID"
    apiPost := fun _ => .ok (some "SALE-1")
    idContaFinanceira := none }

/-- The aggregate `montarPedido` builds from `sampleRow`. -/
def sampleVenda : VendaMontada :=
  { header := mkHeader "P1" sampleRow
    itens := [{ tipo := "PRODUTO", codigo := "PRD-1", quantidade := 1, unit_price := 100 }]
    payments := [{ metodo := "PIX", valor := 100, vencimento := "2024-01-15" }] }

/-- Witness for C1 at a concrete input: the mismatching group `"P2"`
(items 100, installments 90) yields no aggregate and one error record. -/
theorem c1_consistencia_financeira_witness :
    (∀ v ∈ ([] : List VendaMontada), v.header.pedido_id ≠ "P2") ∧
    ∃ er ∈ [({ pedido_id := "P2", erro := sampleMismatchErro } : ErroReg)],
      er.pedido_id = "P2" :=
  (c1_consistencia_financeira [sampleRowMismatch] []
      [⟨"P2", sampleMismatchErro⟩] (by with_unfolding_all rfl)).2 "P2" (by decide)
      (of_decide_eq_true (by with_unfolding_all rfl))

theorem checkHeader_error_shape (h : CabecalhoVenda) (e : Erro)
    (he : checkHeader h = .error e) :
    e = .customerTipoInvalido ∨ e = .cpfInvalido ∨ e = .cnpjInvalido ∨
    e = .dataInvalida h.sale_date := by
  unfold checkHeader at he
  split at he
  · injection he with h2; exact .inl h2.symm
  · split at he
    · injection he with h2; exact .inr (.inl h2.symm)
    · split at he
      · injection he with h2; exact .inr (.inr (.inl h2.symm))
      · split at he
        · injection he with h2; exact .inr (.inr (.inr h2.symm))
        · exact Except.noConfusion he

theorem buildItens_error_shape (pid : String) :
    ∀ (rows : List Row) (e : Erro), buildItens pid rows = .error e →
      (∃ t, e = .itemTipoInvalido pid t) ∨ e = .quantidadeInvalida pid ∨
      e = .unitPriceInvalido pid := by
  intro rows
  induction rows with
  | nil =>
    intro e he
    simp only [buildItens] at he
    exact Except.noConfusion he
  | cons r rs ih =>
    intro e he
    simp only [buildItens] at he
    split at he
    · injection he with h2; exact .inl ⟨_, h2.symm⟩
    · split at he
      · injection he with h2; exact .inr (.inl h2.symm)
      · split at he
        · injection he with h2; exact .inr (.inr h2.symm)
        · split at he
          · rename_i e' he'
            injection he with h2
            subst h2
            exact ih e' he'
          · exact Except.noConfusion he

theorem buildPayments_error_shape (pid : String) :
    ∀ (rows : List Row) (e : Erro), buildPayments pid rows = .error e →
      e = .pagamentoInvalido pid ∨ ∃ s, e = .dataInvalida s := by
  intro rows
  induction rows with
  | nil =>
    intro e he
    simp only [buildPayments] at he
    exact Except.noConfusion he
  | cons r rs ih =>
    intro e he
    simp only [buildPayments] at he
    split at he
    · injection he with h2; exact .inl h2.symm
    · split at he
      · injection he with h2; exact .inr ⟨_, h2.symm⟩
      · split at he
        · rename_i e' he'
          injection he with h2
          subst h2
          exact ih e' he'
        · exact Except.noConfusion he

theorem checkDeclarado_ok_facts (pid : String) (hd : CabecalhoVenda) (tc : ℚ) (d : ℚ) (u : Unit)
    (hdecl : hd.total_declarado = some d)
    (hok : checkDeclarado pid hd tc = .ok u) : round2 d = tc := by
  unfold checkDeclarado at hok
  split at hok
  · rename_i hnone
    rw [hdecl] at hnone
    exact Option.noConfusion hnone
  · rename_i d' hsome
    rw [hdecl] at hsome
    injection hsome with hdd
    subst hdd
    split at hok
    · assumption
    · exact Except.noConfusion hok

theorem checkDeclarado_error_facts (pid : String) (hd : CabecalhoVenda) (tc : ℚ)
    (a b : ℚ) (pid' : String)
    (he : checkDeclarado pid hd tc = .error (.totalDeclaradoDiff a b pid')) :
    hd.total_declarado = some a ∧ b = tc ∧ pid' = pid ∧ round2 a ≠ tc := by
  unfold checkDeclarado at he
  split at he
  · exact Except.noConfusion he
  · rename_i d' hsome
    split at he
    · exact Except.noConfusion he
    · rename_i hcond
      injection he with h2
      injection h2 with ha hb hp
      subst ha
      subst hb
      subst hp
      exact ⟨hsome, rfl, rfl, hcond⟩

/-- C2 (amended): the declared-total check of `_montar_por_pedido` compares
`round(total_declarado, 2)` — not the raw declared value — with the
computed total `round(items + shipping, 2)`.  When a group's aggregate is
emitted, the rounded declared value (if present) equals the computed
total; and the declared-total rejection carries exactly the declared value
and the computed total (named in its message), and fires only when the
comparison after rounding the declared value fails. -/
theorem c2_total_declarado_amended :
    ∀ (pid : String) (r0 : Row) (rest : List Row) (d : ℚ),
      r0.total_declarado = some d →
      (∀ v, montarPedido pid (r0 :: rest) = .ok v →
        round2 d = round2 (rowsItemSum (r0 :: rest) + r0.shipping_cost)) ∧
      (∀ a b pid', montarPedido pid (r0 :: rest) = .error (.totalDeclaradoDiff a b pid') →
        a = d ∧ b = round2 (rowsItemSum (r0 :: rest) + r0.shipping_cost) ∧
        round2 d ≠ b ∧ pid' = pid) := by
  intro pid r0 rest d hd
  have hship : (mkHeader pid r0).shipping_cost = r0.shipping_cost := by simp [mkHeader]
  have hdecl : (mkHeader pid r0).total_declarado = some d := by simp [mkHeader, hd]
  constructor
  · intro v h
    simp only [montarPedido] at h
    split at h
    · exact Except.noConfusion h
    · split at h
      · exact Except.noConfusion h
      · rename_i its t hItens
        split at h
        · exact Except.noConfusion h
        · rename_i ps s hPay
          split at h
          · exact Except.noConfusion h
          · rename_i u hDecl
            obtain ⟨_, hi2⟩ := buildItens_ok_sum pid (r0 :: rest) its t hItens
            have := checkDeclarado_ok_facts pid (mkHeader pid r0)
              (round2 (t + (mkHeader pid r0).shipping_cost)) d u hdecl hDecl
            rw [this, hship, ← hi2]
  · intro a b pid' h
    simp only [montarPedido] at h
    split at h
    · rename_i e' he'
      injection h with h2
      subst h2
      rcases checkHeader_error_shape _ _ he' with h1 | h1 | h1 | h1 <;> simp at h1
    · split at h
      · rename_i e' he'
        injection h with h2
        subst h2
        rcases buildItens_error_shape pid (r0 :: rest) _ he' with ⟨_, h1⟩ | h1 | h1 <;> simp at h1
      · rename_i its t hItens
        split at h
        · rename_i e' he'
          injection h with h2
          subst h2
          rcases buildPayments_error_shape pid (r0 :: rest) _ he' with h1 | ⟨_, h1⟩ <;> simp at h1
        · rename_i ps s hPay
          split at h
          · rename_i e' he'
            injection h with h2
            subst h2
            obtain ⟨hsome, hb, hp, hne⟩ := checkDeclarado_error_facts pid (mkHeader pid r0)
              (round2 (t + (mkHeader pid r0).shipping_cost)) a b pid' he'
            rw [hdecl] at hsome
            injection hsome with hda
            obtain ⟨_, hi2⟩ := buildItens_ok_sum pid (r0 :: rest) its t hItens
            refine ⟨hda.symm, ?_, ?_, hp⟩
            · rw [hb, hship, ← hi2]
            · rw [hb, hda]
              exact hne
          · split at h
            · exact Except.noConfusion h
            · injection h with h2
              simp at h2

/-- A row declaring a total of 100.001 against a computed total of 100. -/
def sampleRowDecl : Row :=
  { sampleRow with total_declarado := some (100 + 1/1000) }

/-- A row declaring exactly the computed total of 100. -/
def sampleRowDeclOk : Row :=
  { sampleRow with total_declarado := some 100 }

/-- Counterexample to C2 as stated: this group's declared total (100.001)
differs from the computed total (100) by a nonzero amount (0.001), yet the
order is *not* rejected — `montarPedido` emits its aggregate, because the
source first rounds the declared value to two decimals. -/
theorem c2_counterexample :
    sampleRowDecl.total_declarado = some (100 + 1/1000) ∧
    round2 (rowsItemSum [sampleRowDecl] + blocoShipping [sampleRowDecl]) = 100 ∧
    (100 + 1/1000 : ℚ) ≠ 100 ∧
    montarPedido "P1" [sampleRowDecl] =
      .ok ⟨mkHeader "P1" sampleRowDecl,
           [{ tipo := "PRODUTO", codigo := "PRD-1", quantidade := 1, unit_price := 100 }],
           [{ metodo := "PIX", valor := 100, vencimento := "2024-01-15" }]⟩ :=
  ⟨rfl, by with_unfolding_all rfl, by norm_num, by with_unfolding_all rfl⟩

/-- Witness for the amended C2 at a concrete input: an order declaring
exactly its computed total passes the declared-total check. -/
theorem c2_total_declarado_amended_witness :
    round2 100 = round2 (rowsItemSum [sampleRowDeclOk] + sampleRowDeclOk.shipping_cost) :=
  (c2_total_declarado_amended "P1" sampleRowDeclOk [] 100 rfl).1
    ⟨mkHeader "P1" sampleRowDeclOk,
     [{ tipo := "PRODUTO", codigo := "PRD-1", quantidade := 1, unit_price := 100 }],
     [{ metodo := "PIX", valor := 100, vencimento := "2024-01-15" }]⟩
    (by with_unfolding_all rfl)

/-- An environment in which every lookup succeeds but the remote creation
call fails. -/
def sampleEnvFalha : Env :=
  { sampleEnv with apiPost := fun _ => .error (.apiErro "HTTP 500") }

/-- C3: Per-order failures never abort the batch.  In `_montar_por_pedido`,
a group that fails validation contributes exactly one error record keyed
by its order id and no aggregate, while a group that validates contributes
its aggregate — independently of the other groups.  In `processar_upload`'s
submission loop, every validated order yields exactly one result row (so N
orders yield N rows), keyed by its order id, with status `"erro"` when
resolution, payload construction or the remote creation call fails and
`"criada"` when it succeeds. -/
theorem c3_isolamento_por_pedido :
    (∀ (df : List Row) (res : List VendaMontada) (errs : List ErroReg),
      _montar_por_pedido df = .ok (res, errs) →
      ∀ pid ∈ pedidosUnicos df,
        (∀ e, montarPedido pid (grupo df pid) = .error e →
          (⟨pid, e⟩ : ErroReg) ∈ errs ∧ ∀ v ∈ res, v.header.pedido_id ≠ pid) ∧
        (∀ v, montarPedido pid (grupo df pid) = .ok v → v ∈ res)) ∧
    (∀ (env : Env) (vendas : List VendaMontada),
      (submeterVendas env vendas).length = vendas.length ∧
      ∀ (k : Nat) (v : VendaMontada), vendas[k]? = some v →
        ∃ r, (submeterVendas env vendas)[k]? = some r ∧
          r.pedido_id = v.header.pedido_id ∧
          (∀ e, criarVendaRemota env v = .error e → r.status = "erro") ∧
          (∀ sid, criarVendaRemota env v = .ok sid → r.status = "criada")) := by
  constructor
  · intro df res errs h pid hpid
    rw [_montar_por_pedido] at h
    split at h
    · exact Except.noConfusion h
    · injection h with h2
      rw [Prod.mk.injEq] at h2
      obtain ⟨hres, herrs⟩ := h2
      constructor
      · intro e he
        constructor
        · rw [← herrs]
          exact montarLoop_mem_err df pid e (pedidosUnicos df) hpid he
        · intro v hv hvpid
          rw [← hres] at hv
          obtain ⟨pid', hpid', hok⟩ := (montarLoop_mem_ok df v (pedidosUnicos df)).1 hv
          have hpe : pid' = pid := by
            rw [← hvpid]
            exact ((montarPedido_ok_facts pid' (grupo df pid') v hok).1).symm
          rw [hpe] at hok
          rw [hok] at he
          exact Except.noConfusion he
      · intro v hv
        rw [← hres]
        exact (montarLoop_mem_ok df v (pedidosUnicos df)).2 ⟨pid, hpid, hv⟩
  · intro env vendas
    constructor
    · exact List.length_map vendas (processVenda env)
    · intro k v hk
      refine ⟨processVenda env v, ?_, ?_, ?_, ?_⟩
      · rw [submeterVendas, List.getElem?_map, hk]
        rfl
      · cases hcall : criarVendaRemota env v <;> simp [processVenda, hcall]
      · intro e he
        simp [processVenda, he]
      · intro sid hs
        simp [processVenda, hs]

/-- Witness for C3 at concrete inputs: with one valid group `"P1"` and one
mismatching group `"P2"`, the error for `"P2"` is recorded while `"P1"`'s
aggregate survives; and a batch of one validated order whose creation call
fails still yields exactly one result row, with status `"erro"`. -/
theorem c3_isolamento_witness :
    ((⟨"P2", sampleMismatchErro⟩ : ErroReg) ∈ [(⟨"P2", sampleMismatchErro⟩ : ErroReg)] ∧
     ∀ v ∈ [sampleVenda], v.header.pedido_id ≠ "P2") ∧
    (submeterVendas sampleEnvFalha [sampleVenda]).length = 1 ∧
    ∃ r, (submeterVendas sampleEnvFalha [sampleVenda])[0]? = some r ∧ r.status = "erro" := by
  refine ⟨?_, ?_, ?_⟩
  · exact (c3_isolamento_por_pedido.1 [sampleRow, sampleRowMismatch] [sampleVenda]
      [⟨"P2", sampleMismatchErro⟩] (by with_unfolding_all rfl) "P2" (by decide)).1
      sampleMismatchErro (by with_unfolding_all rfl)
  · exact (c3_isolamento_por_pedido.2 sampleEnvFalha [sampleVenda]).1
  · obtain ⟨r, hr, _, herr, _⟩ :=
      (c3_isolamento_por_pedido.2 sampleEnvFalha [sampleVenda]).2 0 sampleVenda rfl
    exact ⟨r, hr, herr (.apiErro "HTTP 500") (by with_unfolding_all rfl)⟩

/-- C4: `_normalize_payment_method` is idempotent and deterministic: every
value of the canonical set normalizes to itself unchanged; every listed
alias maps to its canonical value; in particular `"PIX_ITAU"` to `"PIX"`
and `"BOLETO_CAIXA"` to `"BOLETO_BANCARIO"`. -/
theorem c4_normalizacao_idempotente :
    ALLOWED_PAYMENT_METHODS.map _normalize_payment_method =
      ALLOWED_PAYMENT_METHODS.map (fun v => (.ok v : Except Erro String)) ∧
    PAYMENT_ALIASES.map (fun kv => _normalize_payment_method kv.1) =
      PAYMENT_ALIASES.map (fun kv => (.ok kv.2 : Except Erro String)) ∧
    _normalize_payment_method "PIX_ITAU" = .ok "PIX" ∧
    _normalize_payment_method "BOLETO_CAIXA" = .ok "BOLETO_BANCARIO" :=
  ⟨rfl, rfl, rfl, rfl⟩

theorem round2_close_iff (x y : ℚ) : |round2 x - round2 y| < 1/100 ↔ round2 x = round2 y := by
  constructor
  · intro h
    have heq : roundHalfEven (x * 100) = roundHalfEven (y * 100) := by
      have hsub : round2 x - round2 y =
          ((roundHalfEven (x * 100) : ℚ) - (roundHalfEven (y * 100) : ℚ)) / 100 := by
        rw [round2, round2, div_sub_div_same]
      rw [hsub, abs_div] at h
      have h1 : |(roundHalfEven (x * 100) : ℚ) - (roundHalfEven (y * 100) : ℚ)| / 100 < 1/100 := by
        simpa using h
      have h2 : |(roundHalfEven (x * 100) : ℚ) - (roundHalfEven (y * 100) : ℚ)| < 1 := by
        linarith
      have h3 : |roundHalfEven (x * 100) - roundHalfEven (y * 100)| < 1 := by
        exact_mod_cast h2
      rw [abs_lt] at h3
      omega
    rw [round2, round2, heq]
  · intro h
    rw [h]
    simp

theorem iguais_iff_pairwise (p0 : ParcelaPag) (rest : List ParcelaPag) :
    (((p0 :: rest).map (fun p => round2 p.valor)).all
      (fun v => |v - ((p0 :: rest).map (fun p => round2 p.valor)).headD 0| < 1/100)) = true ↔
    ∀ p ∈ p0 :: rest, ∀ q ∈ p0 :: rest, round2 p.valor = round2 q.valor := by
  simp only [List.map_cons, List.headD_cons, List.all_eq_true, List.mem_cons, List.mem_map,
    decide_eq_true_eq]
  constructor
  · intro h p hp q hq
    have hval : ∀ r, r = p0 ∨ r ∈ rest → round2 r.valor = round2 p0.valor := by
      intro r hr
      rcases hr with hr | hr
      · rw [hr]
      · exact (round2_close_iff r.valor p0.valor).1 (h _ (.inr ⟨r, hr, rfl⟩))
    rw [hval p hp, hval q hq]
  · intro h v hv
    rcases hv with hv | ⟨p, hp, hv⟩
    · rw [hv]
      simp
    · rw [← hv]
      exact (round2_close_iff p.valor p0.valor).2 (h p (.inr hp) p0 (.inl rfl))

/-- C5 (amended): the payment-plan inference yields the cash descriptor for a
single installment regardless of amount; for two or more installments it
yields `"Nx"` exactly when all amounts *round to the same value at two
decimals* (the source rounds each amount before applying its one-cent
tolerance, so the effective condition is equality of the rounded amounts,
not closeness of the raw amounts); otherwise, when the sale date and every
due date parse, it yields the comma-joined day offsets clamped below at
zero. -/
theorem c5_inferencia_condicao_amended :
    ∀ (d : String) (ps : List ParcelaPag),
      (ps.length = 1 → _infer_opcao_condicao_pagamento d ps = "À vista") ∧
      (2 ≤ ps.length →
        (∀ p ∈ ps, ∀ q ∈ ps, round2 p.valor = round2 q.valor) →
        _infer_opcao_condicao_pagamento d ps = toString ps.length ++ "x") ∧
      (2 ≤ ps.length →
        ¬ (∀ p ∈ ps, ∀ q ∈ ps, round2 p.valor = round2 q.valor) →
        ∀ (base : PDate) (dues : List PDate), strptimeYmd d = some base →
          ps.mapM (fun p => strptimeYmd p.data_vencimento) = some dues →
          _infer_opcao_condicao_pagamento d ps =
            String.intercalate ", "
              (dues.map (fun due => toString (max 0 (civilDays due - civilDays base))))) := by
  intro d ps
  refine ⟨?_, ?_, ?_⟩
  · intro h1
    rw [_infer_opcao_condicao_pagamento, if_neg (by omega), if_pos h1]
  · intro h2 hpair
    obtain ⟨p0, rest, rfl⟩ : ∃ p0 rest, ps = p0 :: rest := by
      cases ps with
      | nil => simp at h2
      | cons a b => exact ⟨a, b, rfl⟩
    rw [_infer_opcao_condicao_pagamento, if_neg (by omega), if_neg (by omega)]
    have hig := (iguais_iff_pairwise p0 rest).2 hpair
    simp only [hig]
    rfl
  · intro h2 hnpair base dues hbase hdues
    obtain ⟨p0, rest, rfl⟩ : ∃ p0 rest, ps = p0 :: rest := by
      cases ps with
      | nil => simp at h2
      | cons a b => exact ⟨a, b, rfl⟩
    rw [_infer_opcao_condicao_pagamento, if_neg (by omega), if_neg (by omega)]
    have hig : (((p0 :: rest).map (fun p => round2 p.valor)).all
        (fun v => |v - ((p0 :: rest).map (fun p => round2 p.valor)).headD 0| < 1/100)) = false := by
      cases hb : (((p0 :: rest).map (fun p => round2 p.valor)).all
          (fun v => |v - ((p0 :: rest).map (fun p => round2 p.valor)).headD 0| < 1/100)) with
      | true => exact absurd ((iguais_iff_pairwise p0 rest).1 hb) hnpair
      | false => rfl
    simp only [hig]
    rw [hbase, hdues]
    rfl

/-- Installment of 100.004, due on the sale date. -/
def parcelaA : ParcelaPag := ⟨"2024-01-01", 100 + 4/1000⟩

/-- Installment of 100.006, due 30 days later. -/
def parcelaB : ParcelaPag := ⟨"2024-01-31", 100 + 6/1000⟩

/-- Counterexample to C5 as stated: the two installment amounts 100.004 and
100.006 are pairwise equal within 1 cent (they differ by 0.002), yet the
inferred descriptor is the day-offset list `"0, 30"`, not `"2x"` — the
source rounds each amount to two decimals first (100.00 vs 100.01) and its
strict `< 0.01` tolerance then fails. -/
theorem c5_counterexample :
    (∀ p ∈ [parcelaA, parcelaB], ∀ q ∈ [parcelaA, parcelaB],
      |p.valor - q.valor| < 1/100) ∧
    2 ≤ ([parcelaA, parcelaB] : List ParcelaPag).length ∧
    _infer_opcao_condicao_pagamento "2024-01-01" [parcelaA, parcelaB] = "0, 30" ∧
    _infer_opcao_condicao_pagamento "2024-01-01" [parcelaA, parcelaB] ≠ "2x" :=
  ⟨of_decide_eq_true (by with_unfolding_all rfl), by decide,
   by with_unfolding_all rfl, of_decide_eq_true (by with_unfolding_all rfl)⟩

/-- Witness for the amended C5 at a concrete input: two installments whose
amounts round to different cents (100.004 and 100.006) and whose dates all
parse infer the clamped day-offset list. -/
theorem c5_inferencia_condicao_amended_witness :
    _infer_opcao_condicao_pagamento "2024-01-01" [parcelaA, parcelaB] =
      String.intercalate ", "
        (([⟨2024, 1, 1⟩, ⟨2024, 1, 31⟩] : List PDate).map
          (fun due => toString (max 0 (civilDays due - civilDays ⟨2024, 1, 1⟩)))) :=
  (c5_inferencia_condicao_amended "2024-01-01" [parcelaA, parcelaB]).2.2
    (by decide) (of_decide_eq_true (by with_unfolding_all rfl))
    ⟨2024, 1, 1⟩ [⟨2024, 1, 1⟩, ⟨2024, 1, 31⟩]
    (by with_unfolding_all rfl) (by with_unfolding_all rfl)

/-- C6: payload construction extracts the order number as the integer formed
by the digits of `pedido_id` in order.  When the earlier steps (item
resolution, payment condition, customer resolution) succeed: a digit-free
order id fails with the missing-order-number error, and an order id with
digits yields a payload whose `numero` is the integer of the concatenated
digits. -/
theorem c6_numero_do_pedido :
    ∀ (env : Env) (venda : VendaMontada) (ips : List ItemPayload) (cond : CondPag) (cli : String),
      resolverItens env venda.itens = .ok ips →
      montarCondicao env venda = .ok cond →
      env.resolveOrCreateCustomer venda.header.cliente_tipo venda.header.cliente_nome
        venda.header.cliente_documento = .ok cli →
      (venda.header.pedido_id.data.filter Char.isDigit = [] →
        _resolver_itens_e_payload env venda = .error (.numeroObrigatorio venda.header.pedido_id)) ∧
      (venda.header.pedido_id.data.filter Char.isDigit ≠ [] →
        ∃ payload, _resolver_itens_e_payload env venda = .ok payload ∧
          payload.numero = digitsToNat (venda.header.pedido_id.data.filter Char.isDigit)) := by
  intro env venda ips cond cli hItens hCond hCli
  constructor
  · intro hnod
    rw [_resolver_itens_e_payload, hItens, hCond, hCli]
    simp only [resolverNumero]
    rw [if_pos hnod]
  · intro hnod
    rw [_resolver_itens_e_payload, hItens, hCond, hCli]
    simp only [resolverNumero]
    rw [if_neg hnod]
    exact ⟨_, rfl, rfl⟩

/-- The valid sample order with the order id `"PED-1001"`. -/
def vendaPED1001 : VendaMontada :=
  { sampleVenda with header := { sampleVenda.header with pedido_id := "PED-1001" } }

/-- Witness for C6 at a concrete input: the order id `"PED-1001"` yields a
payload whose `numero` is 1001. -/
theorem c6_numero_do_pedido_witness :
    (∃ payload, _resolver_itens_e_payload sampleEnv vendaPED1001 = .ok payload ∧
      payload.numero = digitsToNat (("PED-1001" : String).data.filter Char.isDigit)) ∧
    digitsToNat (("PED-1001" : String).data.filter Char.isDigit) = 1001 :=
  ⟨(c6_numero_do_pedido sampleEnv vendaPED1001
      [{ id := "PROD-ID", quantidade := 1, valor := 100 }]
      { tipo_pagamento := "PIX", opcao_condicao_pagamento := "À vista",
        parcelas := [{ data_vencimento := "2024-01-15", valor := 100 }],
        id_conta_financeira := none }
      "CLI-ID" (by with_unfolding_all rfl) (by with_unfolding_all rfl)
      (by with_unfolding_all rfl)).2 (by decide),
   by decide⟩

/-- C7: batch-level limits are hard aborts.  `parse_planilha` fails outright
when a required column is missing after header mapping, or (with all
required columns present) when the row count exceeds `MAX_ROWS`, producing
no rows; `_montar_por_pedido` fails outright when the distinct order count
exceeds `MAX_ORDERS`, emitting neither aggregates nor per-order error
records (an `Except.error` carries nothing else). -/
theorem c7_limites_abortam :
    (∀ sheet : Sheet, faltandoCols sheet ≠ [] →
      parse_planilha sheet = .error (.colunasAusentes (faltandoCols sheet))) ∧
    (∀ sheet : Sheet, faltandoCols sheet = [] → MAX_ROWS < sheet.rows.length →
      parse_planilha sheet = .error (.limiteLinhas MAX_ROWS)) ∧
    (∀ df : List Row, MAX_ORDERS < (pedidosUnicos df).length →
      _montar_por_pedido df = .error (.limitePedidos MAX_ORDERS)) := by
  refine ⟨?_, ?_, ?_⟩
  · intro sheet h
    rw [parse_planilha, if_pos h]
  · intro sheet h hrows
    rw [parse_planilha, if_neg (by simp [h]), if_pos hrows]
  · intro df h
    rw [_montar_por_pedido, if_pos h]

/-- A sheet whose header yields only `pedido_id` after mapping. -/
def sheetSemColunas : Sheet := ⟨["pedido_id"], []⟩

/-- A sheet with all required columns and 2001 rows. -/
def sheetMuitasLinhas : Sheet := ⟨obrig, List.replicate 2001 []⟩

/-- A distinct order id per index: `i` letters `a`. -/
def mkPid (i : Nat) : String := String.mk (List.replicate i 'a')

/-- A normalized table with 501 distinct order ids. -/
def dfMuitosPedidos : List Row :=
  (List.range 501).map (fun i => { sampleRow with pedido_id := mkPid i })

theorem mkPid_injective : Function.Injective mkPid := by
  intro i j h
  have hd : List.replicate i 'a' = List.replicate j 'a' := congrArg String.data h
  have hlen := congrArg List.length hd
  simpa using hlen

theorem uniqAux_of_nodup :
    ∀ (l : List String), l.Nodup → ∀ (seen : List String), (∀ x ∈ l, x ∉ seen) →
      uniqAux l seen = l := by
  intro l
  induction l with
  | nil => intro _ seen _; rfl
  | cons x xs ih =>
    intro hnd seen hsn
    rw [uniqAux, if_neg (hsn x (.head _))]
    congr 1
    refine ih (List.Nodup.of_cons hnd) (x :: seen) ?_
    intro y hy hmem
    cases hmem with
    | head => exact (List.nodup_cons.1 hnd).1 hy
    | tail _ hmem' => exact hsn y (.tail _ hy) hmem'

theorem pedidosUnicos_dfMuitosPedidos : (pedidosUnicos dfMuitosPedidos).length = 501 := by
  have hmap : dfMuitosPedidos.map (fun r => r.pedido_id) = (List.range 501).map mkPid := by
    simp only [dfMuitosPedidos, List.map_map]
    rfl
  rw [pedidosUnicos, hmap, uniqAux_of_nodup]
  · simp
  · exact List.Nodup.map mkPid_injective (List.nodup_range 501)
  · intro x _ hmem
    exact List.not_mem_nil x hmem

/-- Witness for C7 at concrete inputs: a sheet missing required columns, a
sheet of 2001 rows, and a table of 501 distinct orders, each aborting with
the corresponding error. -/
theorem c7_limites_abortam_witness :
    parse_planilha sheetSemColunas = .error (.colunasAusentes (faltandoCols sheetSemColunas)) ∧
    parse_planilha sheetMuitasLinhas = .error (.limiteLinhas MAX_ROWS) ∧
    _montar_por_pedido dfMuitosPedidos = .error (.limitePedidos MAX_ORDERS) :=
  ⟨c7_limites_abortam.1 sheetSemColunas (by decide),
   c7_limites_abortam.2.1 sheetMuitasLinhas (by decide)
     (by simp only [sheetMuitasLinhas, List.length_replicate, MAX_ROWS]
         omega),
   c7_limites_abortam.2.2 dfMuitosPedidos
     (by rw [pedidosUnicos_dfMuitosPedidos]
         decide)⟩

theorem dropWhile_head_false {p : Char → Bool} :
    ∀ (l : List Char), (∀ c ∈ l, p c = false) → l.dropWhile p = l := by
  intro l h
  cases l with
  | nil => rfl
  | cons c t =>
    rw [List.dropWhile_cons, h c (.head _)]
    simp

theorem pyStrip_of_no_ws (l : List Char) (h : ∀ c ∈ l, c.isWhitespace = false) :
    pyStrip l = l := by
  unfold pyStrip
  rw [dropWhile_head_false l h,
    dropWhile_head_false l.reverse (fun c hc => h c (List.mem_reverse.1 hc)),
    List.reverse_reverse]

theorem isDigit_not_ws (c : Char) (h : c.isDigit = true) : c.isWhitespace = false := by
  by_cases h1 : c = ' '
  · subst h1; exact absurd h (by decide)
  by_cases h2 : c = '\t'
  · subst h2; exact absurd h (by decide)
  by_cases h3 : c = '\r'
  · subst h3; exact absurd h (by decide)
  by_cases h4 : c = '\n'
  · subst h4; exact absurd h (by decide)
  simp [Char.isWhitespace, h1, h2, h3, h4]

theorem isDigit_ne (c : Char) (h : c.isDigit = true) :
    c ≠ ',' ∧ c ≠ '.' ∧ c ≠ '-' ∧ c ≠ '+' := by
  refine ⟨?_, ?_, ?_, ?_⟩ <;> intro he <;> subst he <;> exact absurd h (by decide)

theorem takeWhile_dot :
    ∀ (a b : List Char), (∀ c ∈ a, c ≠ '.') →
      ((a ++ '.' :: b).takeWhile notDot = a ∧
       (a ++ '.' :: b).dropWhile notDot = '.' :: b) := by
  intro a
  induction a with
  | nil =>
    intro b _
    constructor
    · simp [List.takeWhile, notDot]
    · simp [List.dropWhile, notDot]
  | cons c t ih =>
    intro b h
    have hcb : notDot c = true := by
      simp [notDot, h c (.head _)]
    obtain ⟨h1, h2⟩ := ih b (fun x hx => h x (.tail _ hx))
    constructor
    · rw [List.cons_append, List.takeWhile_cons, hcb]
      simp only [if_true]
      rw [h1]
    · rw [List.cons_append, List.dropWhile_cons, hcb]
      simp only [if_true]
      exact h2

theorem pyFloat_digits (orig : String) (a b : List Char) (ha : a ≠ [])
    (hda : ∀ c ∈ a, c.isDigit = true) (hdb : ∀ c ∈ b, c.isDigit = true) :
    pyFloat orig (a ++ '.' :: b) =
      .ok ((digitsToNat a : ℚ) + (digitsToNat b : ℚ) / 10 ^ b.length) := by
  obtain ⟨c0, t, rfl⟩ : ∃ c0 t, a = c0 :: t := by
    cases a with
    | nil => exact absurd rfl ha
    | cons x xs => exact ⟨x, xs, rfl⟩
  have hnd : ∀ c ∈ c0 :: t, c ≠ '.' := fun c hc => (isDigit_ne c (hda c hc)).2.1
  obtain ⟨htake, hdrop⟩ := takeWhile_dot (c0 :: t) b hnd
  have hsign : pySign ((c0 :: t) ++ '.' :: b) = (1, (c0 :: t) ++ '.' :: b) := by
    have h1 := (isDigit_ne c0 (hda c0 (.head _))).2.2.1
    have h2 := (isDigit_ne c0 (hda c0 (.head _))).2.2.2
    simp [pySign, h1, h2]
  rw [pyFloat, hsign]
  simp only []
  rw [htake, hdrop]
  dsimp only []
  rw [if_pos ⟨Or.inl ha, List.all_eq_true.2 hda, List.all_eq_true.2 hdb⟩]
  rw [one_mul]

theorem to_num_decimal (a b : List Char) (sep : Char) (hsep : sep = ',' ∨ sep = '.')
    (ha : a ≠ []) (hda : ∀ c ∈ a, c.isDigit = true) (hdb : ∀ c ∈ b, c.isDigit = true) :
    _to_num (.str (String.mk (a ++ sep :: b))) =
      .ok ((digitsToNat a : ℚ) + (digitsToNat b : ℚ) / 10 ^ b.length) := by
  have hne : String.mk (a ++ sep :: b) ≠ "" := by
    intro hcon
    have hd := congrArg String.data hcon
    simp at hd
  have hstrip : pyStrip (a ++ sep :: b) = a ++ sep :: b := by
    refine pyStrip_of_no_ws _ ?_
    intro c hc
    rcases List.mem_append.1 hc with hc | hc
    · exact isDigit_not_ws c (hda c hc)
    · rcases List.mem_cons.1 hc with hc | hc
      · subst hc
        rcases hsep with h | h <;> subst h <;> decide
      · exact isDigit_not_ws c (hdb c hc)
  have hmap : (a ++ sep :: b).map (fun c => if c = ',' then '.' else c) = a ++ '.' :: b := by
    rw [List.map_append, List.map_cons]
    have hid : ∀ (l : List Char), (∀ c ∈ l, c.isDigit = true) →
        l.map (fun c => if c = ',' then '.' else c) = l := by
      intro l hl
      have hcongr : ∀ c ∈ l, (if c = ',' then '.' else c) = id c :=
        fun c hc => if_neg ((isDigit_ne c (hl c hc)).1)
      rw [List.map_congr_left hcongr, List.map_id]
    rw [hid a hda, hid b hdb]
    congr 1
    rcases hsep with h | h <;> subst h <;> rfl
  simp only [_to_num]
  rw [if_neg hne]
  rw [hstrip, hmap]
  exact pyFloat_digits _ a b ha hda hdb

/-- C8 (amended): `_to_num` converts values written with either a comma or a
dot decimal separator to the corresponding number, and coerces missing
(`NaN`) and empty-string cells to 0.0 — but it is *not* total: unparseable
text such as `"abc"` raises (`float(...)` raises `ValueError`), it does
not coerce to 0.0. -/
theorem c8_coercao_numerica_amended :
    (∀ (a b : List Char), a ≠ [] →
      (∀ c ∈ a, c.isDigit = true) → (∀ c ∈ b, c.isDigit = true) →
      _to_num (.str (String.mk (a ++ ',' :: b))) =
        .ok ((digitsToNat a : ℚ) + (digitsToNat b : ℚ) / 10 ^ b.length) ∧
      _to_num (.str (String.mk (a ++ '.' :: b))) =
        .ok ((digitsToNat a : ℚ) + (digitsToNat b : ℚ) / 10 ^ b.length)) ∧
    _to_num .empty = .ok 0 ∧
    _to_num (.str "") = .ok 0 ∧
    _to_num (.str "abc") = .error (.valorInvalido "abc") := by
  refine ⟨?_, rfl, rfl, by rfl⟩
  intro a b ha hda hdb
  exact ⟨to_num_decimal a b ',' (.inl rfl) ha hda hdb,
         to_num_decimal a b '.' (.inr rfl) ha hda hdb⟩

/-- Counterexample to C8 as stated: the unparseable cell value `"abc"` does
not coerce to 0.0 — the coercion fails with a `ValueError`, so `_to_num`
is not total. -/
theorem c8_counterexample :
    _to_num (.str "abc") = .error (.valorInvalido "abc") ∧
    _to_num (.str "abc") ≠ .ok 0 := by
  have h : _to_num (.str "abc") = .error (.valorInvalido "abc") := by rfl
  refine ⟨h, ?_⟩
  rw [h]
  intro hcon
  exact Except.noConfusion hcon

/-- Witness for the amended C8 at a concrete input: `"12,5"` coerces to
12.5. -/
theorem c8_coercao_numerica_amended_witness :
    _to_num (.str "12,5") =
      .ok ((digitsToNat ['1', '2'] : ℚ) + (digitsToNat ['5'] : ℚ) / 10 ^ ([('5' : Char)].length)) ∧
    ((digitsToNat ['1', '2'] : ℚ) + (digitsToNat ['5'] : ℚ) / 10 ^ ([('5' : Char)].length)) = 25/2 :=
  ⟨((c8_coercao_numerica_amended.1 ['1', '2'] ['5'] (by decide) (by decide) (by decide)).1 :
      _to_num (.str (String.mk (['1', '2'] ++ ',' :: ['5']))) = _),
   by with_unfolding_all rfl⟩

theorem normalize_error_shape (raw : String) (e : Erro)
    (h : _normalize_payment_method raw = .error e) :
    e = .formaPagamentoInvalida raw allowedPreview := by
  unfold _normalize_payment_method at h
  dsimp only [] at h
  split at h
  · exact Except.noConfusion h
  · split at h
    · exact Except.noConfusion h
    · split at h
      · exact Except.noConfusion h
      · split at h
        · exact Except.noConfusion h
        · injection h with h2
          exact h2.symm

theorem mapExcept_ok_mem {α β : Type} (f : α → Except Erro β) :
    ∀ (l : List α) (ms : List β), mapExcept f l = .ok ms →
      ∀ x ∈ l, ∃ y ∈ ms, f x = .ok y := by
  intro l
  induction l with
  | nil => intro ms _ x hx; cases hx
  | cons a t ih =>
    intro ms h x hx
    rw [mapExcept] at h
    split at h
    · exact Except.noConfusion h
    · rename_i y hy
      split at h
      · exact Except.noConfusion h
      · rename_i ys hys
        injection h with h2
        subst h2
        cases hx with
        | head => exact ⟨y, .head _, hy⟩
        | tail _ hx' =>
          obtain ⟨y', hy', hfy'⟩ := ih ys hys x hx'
          exact ⟨y', .tail _ hy', hfy'⟩

theorem mapExcept_error_exists {α β : Type} (f : α → Except Erro β) :
    ∀ (l : List α), (∃ x ∈ l, ∃ e, f x = .error e) →
      ∃ x ∈ l, ∃ e, f x = .error e ∧ mapExcept f l = .error e := by
  intro l
  induction l with
  | nil =>
    rintro ⟨x, hx, _⟩
    cases hx
  | cons a t ih =>
    rintro ⟨x, hx, e, he⟩
    cases hfa : f a with
    | error ea =>
      refine ⟨a, .head _, ea, hfa, ?_⟩
      rw [mapExcept, hfa]
    | ok y =>
      have hxt : x ∈ t := by
        cases hx with
        | head =>
          rw [hfa] at he
          exact Except.noConfusion he
        | tail _ hx' => exact hx'
      obtain ⟨x', hx', e', he', hmap⟩ := ih ⟨x, hxt, e, he⟩
      refine ⟨x', .tail _ hx', e', he', ?_⟩
      rw [mapExcept, hfa, hmap]

theorem uniq_len_one (ms : List String) (h : (uniqAux ms []).length = 1) :
    ∃ m, (∀ y ∈ ms, y = m) ∧ uniqAux ms [] = [m] := by
  obtain ⟨m, hm⟩ : ∃ m, uniqAux ms [] = [m] := by
    cases hu : uniqAux ms [] with
    | nil => rw [hu] at h; exact absurd h (by decide)
    | cons a t =>
      rw [hu] at h
      simp only [List.length_cons] at h
      have : t = [] := List.length_eq_zero.1 (by omega)
      exact ⟨a, by rw [this]⟩
  refine ⟨m, ?_, hm⟩
  intro y hy
  have : y ∈ uniqAux ms [] := (mem_uniqAux y ms []).2 ⟨hy, by simp⟩
  rw [hm] at this
  cases this with
  | head => rfl
  | tail _ hmem => cases hmem

theorem montarCondicao_ok_facts (env : Env) (venda : VendaMontada) (cond : CondPag)
    (h : montarCondicao env venda = .ok cond) :
    ∃ ms, mapExcept (fun p => _normalize_payment_method p.metodo) venda.payments = .ok ms ∧
      (uniqAux ms []).length = 1 ∧ cond.tipo_pagamento = (uniqAux ms []).headD "" := by
  rw [montarCondicao] at h
  split at h
  · exact Except.noConfusion h
  · split at h
    · exact Except.noConfusion h
    · rename_i ms hms
      dsimp only [] at h
      by_cases hlen : (uniqAux ms []).length ≠ 1
      · rw [if_pos hlen] at h
        exact Except.noConfusion h
      · rw [if_neg hlen] at h
        split at h
        · exact Except.noConfusion h
        · rename_i parcelas hparcelas
          injection h with h2
          subst h2
          exact ⟨ms, hms, not_not.1 hlen, rfl⟩

theorem resolver_ok_cond (env : Env) (venda : VendaMontada) (payload : Payload)
    (h : _resolver_itens_e_payload env venda = .ok payload) :
    ∃ cond, montarCondicao env venda = .ok cond ∧ payload.condicao_pagamento = cond := by
  rw [_resolver_itens_e_payload] at h
  split at h
  · exact Except.noConfusion h
  · split at h
    · exact Except.noConfusion h
    · rename_i cond hcond
      split at h
      · exact Except.noConfusion h
      · split at h
        · exact Except.noConfusion h
        · injection h with h2
          subst h2
          exact ⟨cond, hcond, rfl⟩

theorem resolver_cond_error (env : Env) (venda : VendaMontada) (ips : List ItemPayload)
    (hItens : resolverItens env venda.itens = .ok ips) (e : Erro)
    (hCond : montarCondicao env venda = .error e) :
    _resolver_itens_e_payload env venda = .error e := by
  rw [_resolver_itens_e_payload, hItens, hCond]

/-- C9: every installment's raw payment method is mapped through the
canonicalization table and all installments must canonicalize to one
common value.  Given that item resolution succeeded and there is at least
one installment: a successfully built payload carries a single canonical
method shared по all installments; an uncanonicalizable raw value makes
construction fail with the invalid-payment-method error naming that raw
value and the preview of example valid values; and canonicalizable but
non-single-valued methods fail with the multiple-forms error. -/
theorem c9_canonicalizacao_pagamentos :
    ∀ (env : Env) (venda : VendaMontada) (ips : List ItemPayload),
      resolverItens env venda.itens = .ok ips →
      venda.payments ≠ [] →
      ((∀ payload, _resolver_itens_e_payload env venda = .ok payload →
        ∃ m, (∀ p ∈ venda.payments, _normalize_payment_method p.metodo = .ok m) ∧
          payload.condicao_pagamento.tipo_pagamento = m) ∧
      ((∃ p ∈ venda.payments, ∃ e, _normalize_payment_method p.metodo = .error e) →
        ∃ p ∈ venda.payments, _resolver_itens_e_payload env venda =
          .error (.formaPagamentoInvalida p.metodo allowedPreview)) ∧
      (∀ ms, mapExcept (fun p => _normalize_payment_method p.metodo) venda.payments = .ok ms →
        (uniqAux ms []).length ≠ 1 →
        _resolver_itens_e_payload env venda = .error .multiplasFormas)) := by
  intro env venda ips hItens hpay
  refine ⟨?_, ?_, ?_⟩
  · intro payload hok
    obtain ⟨cond, hcond, hpc⟩ := resolver_ok_cond env venda payload hok
    obtain ⟨ms, hms, hlen, htipo⟩ := montarCondicao_ok_facts env venda cond hcond
    obtain ⟨m, hall, huniq⟩ := uniq_len_one ms hlen
    refine ⟨m, ?_, ?_⟩
    · intro p hp
      obtain ⟨y, hy, hfy⟩ := mapExcept_ok_mem _ venda.payments ms hms p hp
      rw [hfy, hall y hy]
    · rw [hpc, htipo, huniq]
      rfl
  · intro hex
    obtain ⟨p, hp, e, he, hmap⟩ := mapExcept_error_exists _ venda.payments hex
    have hshape := normalize_error_shape p.metodo e he
    subst hshape
    refine ⟨p, hp, ?_⟩
    refine resolver_cond_error env venda ips hItens _ ?_
    rw [montarCondicao, if_neg hpay, hmap]
  · intro ms hms hlen
    refine resolver_cond_error env venda ips hItens _ ?_
    rw [montarCondicao, if_neg hpay, hms]
    simp only []
    rw [if_pos hlen]

/-- The sample order with an uncanonicalizable payment method. -/
def vendaPagamentoRuim : VendaMontada :=
  { sampleVenda with payments := [{ metodo := "VALE_REFEICAO", valor := 100, vencimento := "2024-01-15" }] }

/-- Witness for C9 at a concrete input: the raw method `"VALE_REFEICAO"`
cannot be canonicalized, and payload construction fails with the error
naming it and the preview of valid values. -/
theorem c9_canonicalizacao_pagamentos_witness :
    ∃ p ∈ vendaPagamentoRuim.payments,
      _resolver_itens_e_payload sampleEnv vendaPagamentoRuim =
        .error (.formaPagamentoInvalida p.metodo allowedPreview) :=
  (c9_canonicalizacao_pagamentos sampleEnv vendaPagamentoRuim
      [{ id := "PROD-ID", quantidade := 1, valor := 100 }]
      (by with_unfolding_all rfl) (by decide)).2.1
    ⟨{ metodo := "VALE_REFEICAO", valor := 100, vencimento := "2024-01-15" },
     by decide, .formaPagamentoInvalida "VALE_REFEICAO" allowedPreview,
     by with_unfolding_all rfl⟩

theorem countP_partition {α : Type} (p q : α → Bool) :
    ∀ l : List α, (∀ x ∈ l, (p x = true ∧ q x = false) ∨ (p x = false ∧ q x = true)) →
      l.countP p + l.countP q = l.length := by
  intro l
  induction l with
  | nil => intro _; simp
  | cons a t ih =>
    intro h
    rw [List.countP_cons, List.countP_cons, List.length_cons]
    have ht := ih (fun x hx => h x (.tail _ hx))
    rcases h a (.head _) with ⟨hp, hq⟩ | ⟨hp, hq⟩ <;> rw [hp, hq] <;> simp <;> omega

theorem processVenda_status (env : Env) (v : VendaMontada) :
    (processVenda env v).status = "criada" ∨ (processVenda env v).status = "erro" := by
  rw [processVenda]
  cases criarVendaRemota env v with
  | ok _ => exact .inl rfl
  | error _ => exact .inr rfl

/-- C10: for every upload run that returns a report, the summary counts are
internally consistent: `total_pedidos` equals the number of result rows
(one per validated aggregate submitted), `sucesso` and `erros` are the
counts of `"criada"` and `"erro"` rows of the per-order result table alone
— so the grouping-stage error records, reported in the separate
`errosMontagem` artifact, are never counted — and
`sucesso + erros = total_pedidos`. -/
theorem c10_resumo_consistente :
    ∀ (env : Env) (sheet : Sheet) (report : Report),
      processar_upload env sheet = .ok report →
      report.resumo.total_pedidos = report.resultados.length ∧
      report.resumo.sucesso = report.resultados.countP (fun r => r.status == "criada") ∧
      report.resumo.erros = report.resultados.countP (fun r => r.status == "erro") ∧
      report.resumo.sucesso + report.resumo.erros = report.resumo.total_pedidos := by
  intro env sheet report h
  rw [processar_upload] at h
  split at h
  · exact Except.noConfusion h
  · split at h
    · exact Except.noConfusion h
    · rename_i df hdf
      split at h
      · exact Except.noConfusion h
      · rename_i vendas errosMontagem hmont
        injection h with h2
        subst h2
        refine ⟨(List.length_map vendas (processVenda env)).symm, rfl, rfl, ?_⟩
        refine (countP_partition _ _ (submeterVendas env vendas) ?_).trans
          (List.length_map vendas (processVenda env))
        intro r hr
        obtain ⟨v, _, rfl⟩ := List.mem_map.1 hr
        rcases processVenda_status env v with hs | hs
        · exact .inl ⟨by rw [hs]; rfl, by rw [hs]; rfl⟩
        · exact .inr ⟨by rw [hs]; rfl, by rw [hs]; rfl⟩

/-- A well-formed one-row upload sheet using the internal column names. -/
def sheetExemplo : Sheet :=
  { cols := ["pedido_id", "sale_date", "customer_tipo", "customer_nome",
             "customer_documento", "item_tipo", "item_codigo", "item_quantidade",
             "item_unit_price", "payment_method", "payment_amount", "payment_due_date"]
    rows := [[.str "P1", .str "2024-01-15", .str "FISICA", .str "Ana",
              .str "12345678901", .str "PRODUTO", .str "PRD-1", .str "1",
              .str "100", .str "PIX", .str "100", .str "2024-01-15"]] }

/-- The report `processar_upload` produces for `sheetExemplo` under
`sampleEnv`. -/
def reportExemplo : Report :=
  { resumo := { total_pedidos := 1, sucesso := 1, erros := 0 }
    resultados := [{ pedido_id := "P1", status := "criada",
                     sale_id := some "SALE-1", mensagem := none }]
    errosMontagem := [] }

/-- Witness for C10 at a concrete input: a one-order upload that succeeds
end-to-end yields a report with consistent counts. -/
theorem c10_resumo_consistente_witness :
    reportExemplo.resumo.total_pedidos = reportExemplo.resultados.length ∧
    reportExemplo.resumo.sucesso + reportExemplo.resumo.erros =
      reportExemplo.resumo.total_pedidos :=
  have h := c10_resumo_consistente sampleEnv sheetExemplo reportExemplo
    (by with_unfolding_all rfl)
  ⟨h.1, h.2.2.2⟩

end Vendas
